import Mathlib

/-!
Verification development for the witness-testimony-prep repository.

The repository contains two near-identical legal-prep tools (witness
cross-examination prep under `api/sessions`, deposition prep under
`api/depositions`).  This file shallowly embeds the resilient
LLM-response ingestion pipeline (JSON response parser, field
validator/coercer, fallback question synthesizer), the deposition
outline store operations, and the generation route handlers, and proves
properties about them.

Modelling conventions:
* JavaScript strings are modelled as `List Char` (`Chars`) internally,
  with `String` at record boundaries.
* JavaScript exceptions are modelled by `Option`: a function that can
  throw returns `none` on the throwing inputs.
* `uuidv4()` (external randomness) is modelled by an injected supply
  `uuid : Nat → String` applied in call order.
* `Date` values are modelled as `Nat` epoch milliseconds.
-/

namespace WitnessPrep

abbrev Chars := List Char

/-- ASCII word character, the `\w` class used by the `\b` boundary in the
source regexes: `[A-Za-z0-9_]`. -/
def isWordChar (c : Char) : Bool :=
  (('A' ≤ c && c ≤ 'Z') || ('a' ≤ c && c ≤ 'z') || ('0' ≤ c && c ≤ '9') || c = '_')

/-- The `\s` regex class (modelled on its ASCII members). -/
def isRegexWs (c : Char) : Bool :=
  (c = ' ' || c = '\t' || c = '\n' || c = '\r' || c = '\x0b' || c = '\x0c')

def isUpperAscii (c : Char) : Bool := ('A' ≤ c && c ≤ 'Z')

def isLowerAscii (c : Char) : Bool := ('a' ≤ c && c ≤ 'z')

def isDigitAscii (c : Char) : Bool := ('0' ≤ c && c ≤ '9')

/-- Named characters used throughout the scanners (double quote, single
quote, backslash, and the byte-order mark). -/
def dquoteC : Char := Char.ofNat 34

def squoteC : Char := Char.ofNat 39

def bslashC : Char := Char.ofNat 92

def bomC : Char := Char.ofNat 0xfeff

def toLowerAscii (c : Char) : Char :=
  if isUpperAscii c then Char.ofNat (c.toNat + 32) else c

def lowerAll (cs : Chars) : Chars := cs.map toLowerAscii

/-- Test `startsWithL pat s` : `pat` is a prefix of `s`. -/
def startsWithL : Chars → Chars → Bool
  | [], _ => true
  | _ :: _, [] => false
  | p :: ps, c :: cs => p = c && startsWithL ps cs

/-- Test `containsL pat s` : `pat` occurs as a contiguous substring of `s`. -/
def containsL (pat : Chars) : Chars → Bool
  | [] => startsWithL pat []
  | c :: cs => startsWithL pat (c :: cs) || containsL pat cs

/-- Substring test on `String`s (JavaScript `String.prototype.includes`). -/
def containsStr (s pat : String) : Bool := containsL pat.toList s.toList

/-- JavaScript `String.prototype.trim`: strips whitespace (including the BOM
character, which JavaScript counts as WhiteSpace) from both ends. -/
def isJsTrimWs (c : Char) : Bool := isRegexWs c || c = bomC

def jsTrim (cs : Chars) : Chars :=
  ((cs.dropWhile isJsTrimWs).reverse.dropWhile isJsTrimWs).reverse

/-- JavaScript `String.prototype.indexOf` for a single character. -/
def firstIdxOf (c : Char) (cs : Chars) : Option Nat :=
  match cs with
  | [] => none
  | d :: rest => if d = c then some 0 else (firstIdxOf c rest).map (· + 1)

/-- JavaScript `String.prototype.lastIndexOf` for a single character. -/
def lastIdxOf (c : Char) (cs : Chars) : Option Nat :=
  match cs with
  | [] => none
  | d :: rest =>
    match lastIdxOf c rest with
    | some n => some (n + 1)
    | none => if d = c then some 0 else none

/-- JavaScript `String.prototype.substring(a, b)`: swaps the arguments when
`a > b` and clamps to the string length. -/
def jsSubstring (cs : Chars) (a b : Nat) : Chars :=
  let lo := min a b
  let hi := max a b
  (cs.drop lo).take (hi - lo)

/-! ## JSON values and `JSON.parse`

The JSON value model.  Numbers keep their source lexeme: no claim in
this development depends on numeric semantics.  Objects keep their
fields in source order; lookup takes the last occurrence of a repeated
name, as `JSON.parse` does. -/

inductive Json where
  | null
  | bool (b : Bool)
  | num (lexeme : String)
  | str (s : String)
  | arr (elems : List Json)
  | obj (fields : List (String × Json))

namespace Json

/-! Structural Boolean equality on `Json`, written as a mutual recursion
through the nested list positions, and shown to decide propositional
equality so that concrete parser outputs can be compared with `decide`. -/

mutual

def jsonBeq : Json → Json → Bool
  | str x, str y => x == y
  | num x, num y => x == y
  | bool x, bool y => x == y
  | null, null => true
  | arr xs, arr ys => jsonBeqList xs ys
  | obj fs, obj gs => jsonBeqFields fs gs
  | _, _ => false

def jsonBeqList : List Json → List Json → Bool
  | [], [] => true
  | x :: xs, y :: ys => jsonBeq x y && jsonBeqList xs ys
  | _, _ => false

def jsonBeqFields : List (String × Json) → List (String × Json) → Bool
  | [], [] => true
  | f :: fs, g :: gs => f.1 == g.1 && jsonBeq f.2 g.2 && jsonBeqFields fs gs
  | _, _ => false

end

mutual

theorem jsonBeq_iff : ∀ a b : Json, jsonBeq a b = true ↔ a = b
  | null, b => by cases b <;> simp [jsonBeq]
  | bool x, b => by cases b <;> simp [jsonBeq]
  | num x, b => by cases b <;> simp [jsonBeq]
  | str x, b => by cases b <;> simp [jsonBeq]
  | arr xs, b => by
    cases b with
    | arr ys => simp [jsonBeq, jsonBeqList_iff xs ys]
    | null => simp [jsonBeq]
    | bool y => simp [jsonBeq]
    | num y => simp [jsonBeq]
    | str y => simp [jsonBeq]
    | obj gs => simp [jsonBeq]
  | obj fs, b => by
    cases b with
    | obj gs => simp [jsonBeq, jsonBeqFields_iff fs gs]
    | null => simp [jsonBeq]
    | bool y => simp [jsonBeq]
    | num y => simp [jsonBeq]
    | str y => simp [jsonBeq]
    | arr ys => simp [jsonBeq]

theorem jsonBeqList_iff : ∀ xs ys : List Json, jsonBeqList xs ys = true ↔ xs = ys
  | [], ys => by cases ys <;> simp [jsonBeqList]
  | x :: xs, [] => by simp [jsonBeqList]
  | x :: xs, y :: ys => by
    simp [jsonBeqList, jsonBeq_iff x y, jsonBeqList_iff xs ys]

theorem jsonBeqFields_iff : ∀ fs gs : List (String × Json), jsonBeqFields fs gs = true ↔ fs = gs
  | [], gs => by cases gs <;> simp [jsonBeqFields]
  | f :: fs, [] => by simp [jsonBeqFields]
  | f :: fs, g :: gs => by
    have hv := jsonBeq_iff f.2 g.2
    have hr := jsonBeqFields_iff fs gs
    simp only [jsonBeqFields, Bool.and_eq_true, beq_iff_eq, hv, hr, List.cons.injEq]
    constructor
    · rintro ⟨⟨h1, h2⟩, h3⟩
      exact ⟨Prod.ext h1 h2, h3⟩
    · rintro ⟨h12, h3⟩
      rw [h12]
      simp [h3]

end

instance : DecidableEq Json := fun a b =>
  decidable_of_iff (jsonBeq a b = true) (jsonBeq_iff a b)

def isObj : Json → Bool
  | obj _ => true
  | _ => false

def isArr : Json → Bool
  | arr _ => true
  | _ => false

/-- Property lookup on a parsed value, as JavaScript property access
produces it: `none` models `undefined`.  On an object, the last
occurrence of a repeated key wins (matching `JSON.parse`); on any other
value the named property is `undefined`. -/
def jsGet : Json → String → Option Json
  | obj fields, k => (fields.reverse.find? (fun f => f.1 == k)).map (·.2)
  | _, _ => none

/-- JavaScript truthiness of a parsed JSON value (`undefined` is handled
by callers through `Option`). -/
def jsTruthy : Json → Bool
  | null => false
  | bool b => b
  | num lex =>
    -- a JSON number is falsy exactly when its value is zero: every
    -- mantissa digit (before any exponent marker) is 0
    !((lex.toList.takeWhile (fun c => !(c = 'e' || c = 'E'))).all
      (fun c => !(c.isDigit) || c = '0'))
  | str s => !(s == "")
  | arr _ => true
  | obj _ => true

end Json

/-! `JSON.parse`, embedded as a fuelled recursive-descent parser over the
JSON grammar: strict number syntax, no trailing commas, string escapes,
`null`/`true`/`false`, whitespace `[ \t\n\r]`.  Surrogate `\u` escapes are
rejected (Lean `Char` cannot carry lone surrogates; no claim involves
them). -/

def isJsonWs (c : Char) : Bool := (c = ' ' || c = '\t' || c = '\n' || c = '\r')

def hexVal? (c : Char) : Option Nat :=
  if isDigitAscii c then some (c.toNat - '0'.toNat)
  else if ('a' ≤ c && c ≤ 'f') then some (c.toNat - 'a'.toNat + 10)
  else if ('A' ≤ c && c ≤ 'F') then some (c.toNat - 'A'.toNat + 10)
  else none

def pStringAux : Nat → Chars → Chars → Option (String × Chars)
  | 0, _, _ => none
  | _ + 1, _, [] => none
  | fuel + 1, acc, c :: rest =>
    if c = dquoteC then some (String.mk acc.reverse, rest)
    else if c = bslashC then
      match rest with
      | [] => none
      | e :: rest2 =>
        if e = dquoteC then pStringAux fuel (dquoteC :: acc) rest2
        else if e = bslashC then pStringAux fuel (bslashC :: acc) rest2
        else if e = '/' then pStringAux fuel ('/' :: acc) rest2
        else if e = 'b' then pStringAux fuel ('\x08' :: acc) rest2
        else if e = 'f' then pStringAux fuel ('\x0c' :: acc) rest2
        else if e = 'n' then pStringAux fuel ('\n' :: acc) rest2
        else if e = 'r' then pStringAux fuel ('\r' :: acc) rest2
        else if e = 't' then pStringAux fuel ('\t' :: acc) rest2
        else if e = 'u' then
          match rest2 with
          | h1 :: h2 :: h3 :: h4 :: rest3 =>
            match hexVal? h1, hexVal? h2, hexVal? h3, hexVal? h4 with
            | some a, some b, some c3, some d =>
              let code := ((a * 16 + b) * 16 + c3) * 16 + d
              if code < 0xd800 || 0xe000 ≤ code then
                pStringAux fuel (Char.ofNat code :: acc) rest3
              else none
            | _, _, _, _ => none
          | _ => none
        else none
    else if c.toNat < 0x20 then none
    else pStringAux fuel (c :: acc) rest

def pString (cs : Chars) : Option (String × Chars) :=
  pStringAux (cs.length + 1) [] cs

def pNumber (cs : Chars) : Option (Json × Chars) :=
  let (sign, cs1) :=
    match cs with
    | c :: rest => if c = '-' then (['-'], rest) else (([] : Chars), cs)
    | [] => ([], cs)
  let intPart := cs1.takeWhile isDigitAscii
  if intPart = [] then none
  else if 1 < intPart.length && intPart.headD ' ' = '0' then none
  else
    let cs2 := cs1.drop intPart.length
    let (fracPart, cs3) :=
      match cs2 with
      | c :: rest =>
        if c = '.' then
          let ds := rest.takeWhile isDigitAscii
          if ds = [] then (([] : Chars), none) else ('.' :: ds, some (rest.drop ds.length))
        else ([], some cs2)
      | [] => ([], some cs2)
    match cs3 with
    | none => none
    | some cs3 =>
      let (expPart, cs4) :=
        match cs3 with
        | c :: rest =>
          if c = 'e' || c = 'E' then
            let (sgn, rest2) :=
              match rest with
              | d :: rest2 => if d = '+' || d = '-' then ([d], rest2) else (([] : Chars), rest)
              | [] => ([], rest)
            let ds := rest2.takeWhile isDigitAscii
            if ds = [] then (([] : Chars), none)
            else (c :: sgn ++ ds, some (rest2.drop ds.length))
          else ([], some cs3)
        | [] => ([], some cs3)
      match cs4 with
      | none => none
      | some cs4 =>
        some (Json.num (String.mk (sign ++ intPart ++ fracPart ++ expPart)), cs4)

mutual

def pValue : Nat → Chars → Option (Json × Chars)
  | 0, _ => none
  | fuel + 1, cs =>
    let cs := cs.dropWhile isJsonWs
    match cs with
    | [] => none
    | c :: rest =>
      if c = 'n' then
        if rest.take 3 = ['u', 'l', 'l'] then some (Json.null, rest.drop 3) else none
      else if c = 't' then
        if rest.take 3 = ['r', 'u', 'e'] then some (Json.bool true, rest.drop 3) else none
      else if c = 'f' then
        if rest.take 4 = ['a', 'l', 's', 'e'] then some (Json.bool false, rest.drop 4) else none
      else if c = dquoteC then (pString rest).map (fun p => (Json.str p.1, p.2))
      else if c = '[' then pArrayBody fuel rest
      else if c = '{' then pObjectBody fuel rest
      else if c = '-' || isDigitAscii c then pNumber cs
      else none

def pArrayBody : Nat → Chars → Option (Json × Chars)
  | 0, _ => none
  | fuel + 1, cs =>
    let cs := cs.dropWhile isJsonWs
    match cs with
    | c :: rest =>
      if c = ']' then some (Json.arr [], rest)
      else pArrayElems fuel cs []
    | [] => none

def pArrayElems : Nat → Chars → List Json → Option (Json × Chars)
  | 0, _, _ => none
  | fuel + 1, cs, acc =>
    match pValue fuel cs with
    | none => none
    | some (v, cs1) =>
      let cs2 := cs1.dropWhile isJsonWs
      match cs2 with
      | c :: rest =>
        if c = ',' then pArrayElems fuel rest (v :: acc)
        else if c = ']' then some (Json.arr (v :: acc).reverse, rest)
        else none
      | [] => none

def pObjectBody : Nat → Chars → Option (Json × Chars)
  | 0, _ => none
  | fuel + 1, cs =>
    let cs := cs.dropWhile isJsonWs
    match cs with
    | c :: rest =>
      if c = '}' then some (Json.obj [], rest)
      else pObjectFields fuel cs []
    | [] => none

def pObjectFields : Nat → Chars → List (String × Json) → Option (Json × Chars)
  | 0, _, _ => none
  | fuel + 1, cs, acc =>
    let cs := cs.dropWhile isJsonWs
    match cs with
    | c :: rest =>
      if c = dquoteC then
        match pString rest with
        | none => none
        | some (k, cs1) =>
          let cs2 := cs1.dropWhile isJsonWs
          match cs2 with
          | d :: rest2 =>
            if d = ':' then
              match pValue fuel rest2 with
              | none => none
              | some (v, cs3) =>
                let cs4 := cs3.dropWhile isJsonWs
                match cs4 with
                | e :: rest3 =>
                  if e = ',' then pObjectFields fuel rest3 ((k, v) :: acc)
                  else if e = '}' then some (Json.obj ((k, v) :: acc).reverse, rest3)
                  else none
                | [] => none
            else none
          | [] => none
      else none
    | [] => none

end

/-- The embedding of `JSON.parse`: `none` models a thrown `SyntaxError`. -/
def jsonParseC (cs : Chars) : Option Json :=
  match pValue (3 * cs.length + 8) cs with
  | some (v, rest) => if rest.dropWhile isJsonWs = [] then some v else none
  | none => none

def jsonParse (s : String) : Option Json := jsonParseC s.toList

/-! ## Shared regex helpers for the response parsers

`parseJSONResponse` exists in two variants: the witness-prep
(`api/sessions/.../generate-questions`) one, which looks for a JSON
array, and the deposition (`api/depositions/.../generate-questions`)
one, which accepts any non-null `typeof === 'object'` value.  Both share
strategies 1 (direct parse) and 2 (strip code fences). -/

/-- The backtick character (code 96). -/
def fenceTick : Char := Char.ofNat 96

def fenceTicks : Chars := [fenceTick, fenceTick, fenceTick]

/-- Strategy 2 leading-fence strip: the replacement of
`^` + three backticks + `(?:json)?\s*\n?` (case-insensitive) by the
empty string.  `\s*` being greedy, it swallows the optional newline. -/
def stripLeadFence (cs : Chars) : Chars :=
  if startsWithL fenceTicks cs then
    let rest := cs.drop 3
    let rest := if startsWithL ['j', 's', 'o', 'n'] (lowerAll (rest.take 4)) then rest.drop 4 else rest
    rest.dropWhile isRegexWs
  else cs

/-- Does `\n?` + three backticks + `\s*$` match at the head of `cs`
(with the rest of the string to the right already gone)? -/
def trailFenceAt (cs : Chars) : Bool :=
  (match cs with
   | c :: rest =>
     (c = '\n' && startsWithL fenceTicks rest && (rest.drop 3).all isRegexWs)
       || (startsWithL fenceTicks cs && (cs.drop 3).all isRegexWs)
   | [] => false)

/-- Strategy 2 trailing-fence strip: the non-global replacement of
`/\n?` + three backticks + `\s*$/i` by the empty string removes from the
leftmost position where that anchored pattern matches. -/
def stripTrailFence : Chars → Chars
  | [] => []
  | c :: rest => if trailFenceAt (c :: rest) then [] else c :: stripTrailFence rest

/-- Strategy 2 cleaning pipeline: trim, strip a leading BOM, strip the
code fences, trim again. -/
def cleanFences (cs : Chars) : Chars :=
  let cleaned := jsTrim cs
  let cleaned := match cleaned with
    | c :: rest => if c = bomC then rest else cleaned
    | [] => cleaned
  let cleaned := stripLeadFence cleaned
  let cleaned := stripTrailFence cleaned
  jsTrim cleaned

/-- Strategy 5 repair: the global replacement of `,\s*([}\]])` by the
captured closer.  Scanning resumes after each replaced match, exactly as
`String.prototype.replace` with a `g` flag does. -/
def removeTrailingCommas : Nat → Chars → Chars
  | 0, cs => cs
  | fuel + 1, cs =>
    match cs with
    | [] => []
    | c :: rest =>
      if c = ',' then
        let w := (rest.takeWhile isRegexWs).length
        match rest.drop w with
        | d :: _ =>
          if d = '}' || d = ']' then d :: removeTrailingCommas fuel (rest.drop (w + 1))
          else c :: removeTrailingCommas fuel rest
        | [] => c :: removeTrailingCommas fuel rest
      else c :: removeTrailingCommas fuel rest

/-- Strategy 5 also rewrites `/(?<!\\)\\n/g` to `'\\n'`: every match (the
two-character sequence backslash-n) is replaced by the identical
two-character sequence, so the rewrite is the identity on strings. -/
def fixEscapedNewlines (cs : Chars) : Chars := cs

/-- For the array regex `\[\s*\{[\s\S]*\}\s*\]`: given the text after
the matched `\{`, the number of characters the greedy `[\s\S]*\}\s*\]`
consumes, with the `\}` as far right as possible. -/
def lastCloseLen : Chars → Option Nat
  | [] => none
  | c :: rest =>
    match (lastCloseLen rest).map (· + 1) with
    | some m => some m
    | none =>
      if c = '}' then
        let w := (rest.takeWhile isRegexWs).length
        match rest.drop w with
        | d :: _ => if d = ']' then some (1 + w + 1) else none
        | [] => none
      else none

/-- A match of `\[\s*\{[\s\S]*\}\s*\]` anchored at the head of `cs`. -/
def arrRegexMatchAt (cs : Chars) : Option Chars :=
  match cs with
  | c :: rest =>
    if c = '[' then
      let w := (rest.takeWhile isRegexWs).length
      match rest.drop w with
      | d :: tail =>
        if d = '{' then
          match lastCloseLen tail with
          | some m => some (c :: rest.take w ++ d :: tail.take m)
          | none => none
        else none
      | [] => none
    else none
  | [] => none

/-- The search `content.match(/\[\s*\{[\s\S]*\}\s*\]/)`: the leftmost match. -/
def arrRegexFind : Nat → Chars → Option Chars
  | 0, _ => none
  | _ + 1, [] => none
  | fuel + 1, c :: rest =>
    match arrRegexMatchAt (c :: rest) with
    | some m => some m
    | none => arrRegexFind fuel rest

/-! ## The witness-prep response parser (`api/sessions`) -/

namespace Sessions

/-- Keep a parse result only when it is an array
(`Array.isArray(parsed)`). -/
def asArray : Option Json → Option (List Json)
  | some (Json.arr l) => some l
  | _ => none

/-- Strategy 1: direct parse. -/
def strategy1 (cs : Chars) : Option (List Json) := asArray (jsonParseC cs)

/-- Strategy 2: clean (BOM, markdown code fences) and parse. -/
def strategy2 (cs : Chars) : Option (List Json) := asArray (jsonParseC (cleanFences cs))

/-- Strategy 3: extract a JSON array using the greedy regex
`\[\s*\{[\s\S]*\}\s*\]` and parse the first match. -/
def strategy3 (cs : Chars) : Option (List Json) :=
  match arrRegexFind (cs.length + 1) cs with
  | some m => asArray (jsonParseC m)
  | none => none

/-- Strategy 4: substring from the first `[` to the last `]`
(requiring the latter to come later) and parse. -/
def strategy4 (cs : Chars) : Option (List Json) :=
  match firstIdxOf '[' cs, lastIdxOf ']' cs with
  | some a, some b =>
    if a < b then asArray (jsonParseC (jsSubstring cs a (b + 1))) else none
  | _, _ => none

/-- Strategy 5: take the bracketed substring when both brackets exist
(without the ordering check strategy 4 performs), remove trailing
commas, apply the no-op newline fix, and parse. -/
def strategy5 (cs : Chars) : Option (List Json) :=
  let fixed :=
    match firstIdxOf '[' cs, lastIdxOf ']' cs with
    | some a, some b => jsSubstring cs a (b + 1)
    | _, _ => cs
  let fixed := removeTrailingCommas (fixed.length + 1) fixed
  let fixed := fixEscapedNewlines fixed
  asArray (jsonParseC fixed)

/-- The literal `"question"` (quotes included) that strategy 6's regex
`\{[^{}]*"question"[^{}]*\}` requires between the braces. -/
def questionKeyLit : Chars := dquoteC :: ('q' :: 'u' :: 'e' :: 's' :: 't' :: 'i' :: 'o' :: 'n' :: [dquoteC])

/-- All matches of `\{[^{}]*"question"[^{}]*\}`: a match runs from a `{`
to the next following brace, which must be a `}`, with the literal
`"question"` in between; scanning resumes after each match. -/
def strat6Matches : Nat → Chars → List Chars
  | 0, _ => []
  | _ + 1, [] => []
  | fuel + 1, c :: rest =>
    if c = '{' then
      let seg := rest.takeWhile (fun d => !(d = '{' || d = '}'))
      let rest2 := rest.drop seg.length
      match rest2 with
      | d :: tl =>
        if d = '}' then
          if containsL questionKeyLit seg then (c :: seg ++ [d]) :: strat6Matches fuel tl
          else strat6Matches fuel rest2
        else strat6Matches fuel rest2
      | [] => []
    else strat6Matches fuel rest

/-- Strategy 6: parse each individual `{...}` span containing a
`"question"` key, keep those that parse with a string-valued `question`
property, and return the partial list when non-empty. -/
def strategy6 (cs : Chars) : Option (List Json) :=
  let questions := (strat6Matches (cs.length + 1) cs).filterMap (fun m =>
    match jsonParseC m with
    | some q =>
      match Json.jsGet q "question" with
      | some (Json.str _) => some q
      | _ => none
    | none => none)
  if questions.length > 0 then some questions else none

/-- The function `parseJSONResponse` (witness-prep variant): robust JSON parsing with
multiple fallback strategies; `none` is the `null` sentinel. -/
def parseJSONResponse (content : String) : Option (List Json) :=
  let cs := content.toList
  strategy1 cs <|> strategy2 cs <|> strategy3 cs <|> strategy4 cs <|> strategy5 cs
    <|> strategy6 cs

def validCategories : List String :=
  ["timeline", "credibility", "inconsistency", "foundation", "impeachment", "general"]

def validateCategory (category : String) : String :=
  if validCategories.contains category then category else "general"

def validDifficulties : List String := ["easy", "medium", "hard"]

def validateDifficulty (difficulty : String) : String :=
  if validDifficulties.contains difficulty then difficulty else "medium"

end Sessions

/-! ## The deposition response parser (`api/depositions`) -/

namespace Depositions

/-- The success guard every strategy applies:
`typeof parsed === 'object' && parsed !== null`.  In JavaScript arrays
also have `typeof` equal to `'object'`, so the guard passes objects and
arrays, and rejects `null`, booleans, numbers and strings. -/
def typeofObjectNotNull : Json → Bool
  | Json.obj _ => true
  | Json.arr _ => true
  | _ => false

def asObjectLike : Option Json → Option Json
  | some v => if typeofObjectNotNull v then some v else none
  | none => none

/-- Strategy 1: direct parse. -/
def strategy1 (cs : Chars) : Option Json := asObjectLike (jsonParseC cs)

/-- Strategy 2: clean (BOM, markdown code fences) and parse. -/
def strategy2 (cs : Chars) : Option Json := asObjectLike (jsonParseC (cleanFences cs))

/-- Strategy 3: extract a JSON object using the greedy regex
`\{[\s\S]*\}`.  Its leftmost match runs from the first `{` to the last
`}` of the text, and exists exactly when the latter comes after the
former, so it coincides with the substring strategy 4 takes. -/
def strategy3 (cs : Chars) : Option Json :=
  match firstIdxOf '{' cs, lastIdxOf '}' cs with
  | some a, some b =>
    if a < b then asObjectLike (jsonParseC (jsSubstring cs a (b + 1))) else none
  | _, _ => none

/-- Strategy 4: substring from the first `{` to the last `}` and parse. -/
def strategy4 (cs : Chars) : Option Json :=
  match firstIdxOf '{' cs, lastIdxOf '}' cs with
  | some a, some b =>
    if a < b then asObjectLike (jsonParseC (jsSubstring cs a (b + 1))) else none
  | _, _ => none

/-- The function `parseJSONResponse` (deposition variant): robust JSON parsing with
multiple fallback strategies; `none` is the `null` sentinel. -/
def parseJSONResponse (content : String) : Option Json :=
  let cs := content.toList
  strategy1 cs <|> strategy2 cs <|> strategy3 cs <|> strategy4 cs

def validCategories : List String :=
  ["gap", "contradiction", "timeline", "foundation", "impeachment", "follow_up", "general"]

def validateCategory (category : String) : String :=
  if validCategories.contains category then category else "general"

def validPriorities : List String := ["high", "medium", "low"]

def validatePriority (priority : String) : String :=
  if validPriorities.contains priority then priority else "medium"

def validSeverities : List String := ["minor", "moderate", "significant"]

def validateSeverity (severity : String) : String :=
  if validSeverities.contains severity then severity else "moderate"

end Depositions

/-! ## JavaScript `String(...)` coercion and truthiness-driven defaults -/

mutual

/-- JavaScript `String(v)` on a parsed JSON value.  The canonical re-formatting of
numbers is elided: a number is rendered by its lexeme. -/
def jsToString : Json → String
  | .null => "null"
  | .bool b => if b then "true" else "false"
  | .num lex => lex
  | .str s => s
  | .arr l => jsArrayToString l
  | .obj _ => "[object Object]"

/-- JavaScript `Array.prototype.toString`: elements joined by commas, with `null`
elements rendered as the empty string. -/
def jsArrayToString : List Json → String
  | [] => ""
  | [x] => jsElemToString x
  | x :: xs => jsElemToString x ++ "," ++ jsArrayToString xs

def jsElemToString : Json → String
  | .null => ""
  | .bool b => if b then "true" else "false"
  | .num lex => lex
  | .str s => s
  | .arr l => jsArrayToString l
  | .obj _ => "[object Object]"

end

/-- Coerce `String(x || dflt)` where `x` is a possibly-`undefined` property. -/
def jsStringOr (o : Option Json) (dflt : String) : String :=
  match o with
  | some v => if Json.jsTruthy v then jsToString v else dflt
  | none => dflt

/-- Coerce `x ? String(x) : undefined` for optional string fields. -/
def jsStringOpt (o : Option Json) : Option String :=
  match o with
  | some v => if Json.jsTruthy v then some (jsToString v) else none
  | none => none

/-- Coerce `Array.isArray(x) ? x.map(String) : []`. -/
def jsStringArrayOrEmpty (o : Option Json) : List String :=
  match o with
  | some (Json.arr l) => l.map jsToString
  | _ => []

/-- Coerce `Array.isArray(x) ? x.map(f => String(f)) : undefined`. -/
def jsStringArrayOpt (o : Option Json) : Option (List String) :=
  match o with
  | some (Json.arr l) => some (l.map jsToString)
  | _ => none

/-- Optional chaining `o?.k`: `undefined` when the receiver is `null` or
`undefined`, ordinary property access otherwise. -/
def jsOptChain (o : Option Json) (k : String) : Option Json :=
  match o with
  | some Json.null => none
  | some v => Json.jsGet v k
  | none => none

/-! ## Entity extraction (`extractDocumentDetails`, deposition route)

Each regex of the source is embedded as a dedicated scanner: a
match-at-position function (carrying the word/non-word state needed for
`\b`) and a global driver that collects matches left to right, resuming
after each match as a `g`-flagged regex does. -/

def wordOptB : Option Char → Bool
  | some c => isWordChar c
  | none => false

/-- The `\b` assertion between a previous and a next character
(`none` at either end of the string). -/
def boundaryB (prev next : Option Char) : Bool := wordOptB prev != wordOptB next

/-- Global scan driver: leftmost matches, scanning resuming after each
match; `prevWord` tracks whether the previous character is a word
character (for `\b` at a match start). -/
def scanAll (matchAt : Bool → Chars → Option Nat) : Nat → Bool → Chars → List Chars
  | 0, _, _ => []
  | _ + 1, _, [] => []
  | fuel + 1, prevWord, c :: rest =>
    match matchAt prevWord (c :: rest) with
    | some len =>
      if len = 0 then scanAll matchAt fuel (isWordChar c) rest
      else
        let m := (c :: rest).take len
        m :: scanAll matchAt fuel (isWordChar (m.getLastD ' ')) ((c :: rest).drop len)
    | none => scanAll matchAt fuel (isWordChar c) rest

/-- The regex `\b[A-Z][a-z]+\s+[A-Z][a-z]+\b` anchored at the current position:
two consecutive capitalized words. -/
def nameMatchAt (prevWord : Bool) (cs : Chars) : Option Nat :=
  if prevWord then none
  else
    match cs with
    | c :: rest =>
      if isUpperAscii c then
        let low1 := (rest.takeWhile isLowerAscii).length
        if low1 = 0 then none
        else
          let r1 := rest.drop low1
          let w := (r1.takeWhile isRegexWs).length
          if w = 0 then none
          else
            match r1.drop w with
            | d :: rest2 =>
              if isUpperAscii d then
                let low2 := (rest2.takeWhile isLowerAscii).length
                if low2 = 0 then none
                else if boundaryB (some 'a') ((rest2.drop low2).head?) then
                  some (1 + low1 + w + 1 + low2)
                else none
              else none
            | [] => none
      else none
    | [] => none

def scanNames (cs : Chars) : List Chars := scanAll nameMatchAt (cs.length + 1) false cs

def monthNames : List Chars :=
  (["january", "february", "march", "april", "may", "june", "july", "august",
    "september", "october", "november", "december"]).map String.toList

/-- Case-insensitive literal prefix: the consumed length when `lit`
(given in lowercase) heads `cs` up to case. -/
def ciPrefixLen (lit : Chars) (cs : Chars) : Option Nat :=
  if lit.length ≤ cs.length && lowerAll (cs.take lit.length) = lit then some lit.length
  else none

/-- Month-name date branch:
`\b(?:January|…|December)\s+\d{1,2},?\s+\d{4}\b` (case-insensitive). -/
def dateBranchMonth (cs : Chars) : Option Nat :=
  match monthNames.findSome? (fun mn => ciPrefixLen mn cs) with
  | none => none
  | some ml =>
    let r1 := cs.drop ml
    let w := (r1.takeWhile isRegexWs).length
    if w = 0 then none
    else
      let r2 := r1.drop w
      let run := (r2.takeWhile isDigitAscii).length
      let tryDay (dlen : Nat) : Option Nat :=
        if dlen = 0 || run < dlen then none
        else
          let r3 := r2.drop dlen
          let (clen, r4) :=
            match r3 with
            | c :: rest => if c = ',' then (1, rest) else (0, r3)
            | [] => (0, r3)
          let w2 := (r4.takeWhile isRegexWs).length
          if w2 = 0 then none
          else
            let r5 := r4.drop w2
            let yrun := (r5.takeWhile isDigitAscii).length
            if yrun = 4 && boundaryB (some '0') ((r5.drop 4).head?) then
              some (ml + w + dlen + clen + w2 + 4)
            else none
      tryDay (min run 2) <|> (if 2 ≤ run then tryDay 1 else none)

/-- Slash date branch: `\b\d{1,2}\/\d{1,2}\/\d{2,4}\b`. -/
def dateBranchSlash (cs : Chars) : Option Nat :=
  let r1 := (cs.takeWhile isDigitAscii).length
  if r1 = 0 || 2 < r1 then none
  else
    match cs.drop r1 with
    | c :: rest =>
      if c = '/' then
        let r2 := (rest.takeWhile isDigitAscii).length
        if r2 = 0 || 2 < r2 then none
        else
          match rest.drop r2 with
          | d :: rest2 =>
            if d = '/' then
              let r3 := (rest2.takeWhile isDigitAscii).length
              if 2 ≤ r3 && r3 ≤ 4 && boundaryB (some '0') ((rest2.drop r3).head?) then
                some (r1 + 1 + r2 + 1 + r3)
              else none
            else none
          | [] => none
      else none
    | [] => none

/-- ISO date branch: `\b\d{4}-\d{2}-\d{2}\b`. -/
def dateBranchIso (cs : Chars) : Option Nat :=
  let r1 := (cs.takeWhile isDigitAscii).length
  if r1 ≠ 4 then none
  else
    match cs.drop 4 with
    | c :: rest =>
      if c = '-' then
        let r2 := (rest.takeWhile isDigitAscii).length
        if r2 ≠ 2 then none
        else
          match rest.drop 2 with
          | d :: rest2 =>
            if d = '-' then
              let r3 := (rest2.takeWhile isDigitAscii).length
              if r3 = 2 && boundaryB (some '0') ((rest2.drop 2).head?) then
                some (4 + 1 + 2 + 1 + 2)
              else none
            else none
          | [] => none
      else none
    | [] => none

def dateMatchAt (prevWord : Bool) (cs : Chars) : Option Nat :=
  if prevWord then none
  else dateBranchMonth cs <|> dateBranchSlash cs <|> dateBranchIso cs

def scanDates (cs : Chars) : List Chars := scanAll dateMatchAt (cs.length + 1) false cs

/-- The regex branch `\$[\d,]+(?:\.\d{2})?`: dollar-sign amounts. -/
def amountBranchDollar (cs : Chars) : Option Nat :=
  match cs with
  | c :: rest =>
    if c = '$' then
      let run := (rest.takeWhile (fun d => isDigitAscii d || d = ',')).length
      if run = 0 then none
      else
        let after := rest.drop run
        let frac :=
          match after with
          | a :: b :: c2 :: _ => if a = '.' && isDigitAscii b && isDigitAscii c2 then 3 else 0
          | _ => 0
        some (1 + run + frac)
    else none
  | [] => none

/-- Currency-word alternatives `(?:dollars?|USD)?` tried greedily, then
the final `\b`; `last` is the character just before `cs`. -/
def amountCurrencyEnd (last : Char) (cs : Chars) : Option Nat :=
  let cands :=
    (match ciPrefixLen "dollars".toList cs with | some n => [n] | none => [])
      ++ (match ciPrefixLen "dollar".toList cs with | some n => [n] | none => [])
      ++ (match ciPrefixLen "usd".toList cs with | some n => [n] | none => [])
      ++ [0]
  cands.findSome? (fun clen =>
    let lastC := if clen = 0 then last else (cs.take clen).getLastD ' '
    if boundaryB (some lastC) ((cs.drop clen).head?) then some clen else none)

def amountWsTry (last : Char) (base : Chars) (w : Nat) : Option Nat :=
  let lastW := if w = 0 then last else (base.take w).getLastD ' '
  (amountCurrencyEnd lastW (base.drop w)).map (· + w)

/-- The greedy `\s*` before the currency word, backtracking from the
longest whitespace run down to none. -/
def amountWsDescend (last : Char) (base : Chars) : Nat → Option Nat
  | 0 => amountWsTry last base 0
  | w + 1 => amountWsTry last base (w + 1) <|> amountWsDescend last base w

/-- The regex tail `(?:\.\d{2})?\s*(?:dollars?|USD)?\b` after the comma groups;
`last` is the digit just before `cs`. -/
def amountTail (last : Char) (cs : Chars) : Option Nat :=
  let tryFrom (f : Nat) (lastF : Char) : Option Nat :=
    let base := cs.drop f
    (amountWsDescend lastF base ((base.takeWhile isRegexWs).length)).map (· + f)
  let fracOk :=
    match cs with
    | a :: b :: c :: _ => a = '.' && isDigitAscii b && isDigitAscii c
    | _ => false
  if fracOk then tryFrom 3 ((cs.take 3).getLastD ' ') <|> tryFrom 0 last
  else tryFrom 0 last

/-- The cumulative lengths of successive `,\d{3}` groups. -/
def commaGroups : Nat → Chars → List Nat
  | 0, _ => []
  | fuel + 1, cs =>
    match cs with
    | c :: d1 :: d2 :: d3 :: rest =>
      if c = ',' && isDigitAscii d1 && isDigitAscii d2 && isDigitAscii d3 then
        4 :: (commaGroups fuel rest).map (· + 4)
      else []
    | _ => []

/-- The regex branch `\b\d{1,3}(?:,\d{3})+(?:\.\d{2})?\s*(?:dollars?|USD)?\b`:
thousand-separated amounts, with the group repetition backtracking from
the most groups down to one. -/
def amountBranchGrouped (prevWord : Bool) (cs : Chars) : Option Nat :=
  if prevWord then none
  else
    let r1 := (cs.takeWhile isDigitAscii).length
    if r1 = 0 || 3 < r1 then none
    else
      let afterD := cs.drop r1
      let groups := commaGroups (afterD.length + 1) afterD
      groups.reverse.findSome? (fun g =>
        (amountTail ((afterD.take g).getLastD '0') (afterD.drop g)).map (fun t => r1 + g + t))

def amountMatchAt (prevWord : Bool) (cs : Chars) : Option Nat :=
  amountBranchDollar cs <|> amountBranchGrouped prevWord cs

def scanAmounts (cs : Chars) : List Chars := scanAll amountMatchAt (cs.length + 1) false cs

/-! The location regex
`\b(?:in|at|from|to)\s+([A-Z][a-z]+(?:\s+[A-Z][a-z]+)?(?:,\s*[A-Z]{2})?)\b`
(case-sensitive). -/

def locPreps : List Chars := (["in", "at", "from", "to"]).map String.toList

/-- The regex `[A-Z][a-z]+` anchored here. -/
def capWordLen (cs : Chars) : Option Nat :=
  match cs with
  | c :: rest =>
    if isUpperAscii c then
      let l := (rest.takeWhile isLowerAscii).length
      if l = 0 then none else some (1 + l)
    else none
  | [] => none

/-- The optional `,\s*[A-Z]{2}` state-abbreviation group. -/
def locStateLen (cs : Chars) : Option Nat :=
  match cs with
  | c :: r2 =>
    if c = ',' then
      let w2 := (r2.takeWhile isRegexWs).length
      match r2.drop w2 with
      | u1 :: u2 :: _ => if isUpperAscii u1 && isUpperAscii u2 then some (1 + w2 + 2) else none
      | _ => none
    else none
  | [] => none

/-- After the first capitalized word (whose last character is `last`):
the optional second word and state groups, greedy, then `\b`. -/
def locAfterFirstWord (last : Char) (cs : Chars) : Option Nat :=
  let tryEnd (len : Nat) (lastE : Char) : Option Nat :=
    if boundaryB (some lastE) ((cs.drop len).head?) then some len else none
  let secondCand : Option Nat :=
    let w := (cs.takeWhile isRegexWs).length
    if w = 0 then none
    else
      match capWordLen (cs.drop w) with
      | some l => some (w + l)
      | none => none
  (match secondCand with
   | some sl =>
     (match locStateLen (cs.drop sl) with
      | some st => tryEnd (sl + st) ((cs.take (sl + st)).getLastD 'A')
      | none => none)
       <|> tryEnd sl ((cs.take sl).getLastD 'a')
   | none => none)
    <|> (match locStateLen cs with
         | some st => tryEnd st ((cs.take st).getLastD 'A')
         | none => none)
    <|> tryEnd 0 last

def locMatchAt (prevWord : Bool) (cs : Chars) : Option Nat :=
  if prevWord then none
  else
    locPreps.findSome? (fun p =>
      if startsWithL p cs then
        let rest := cs.drop p.length
        let w := (rest.takeWhile isRegexWs).length
        if w = 0 then none
        else
          match capWordLen (rest.drop w) with
          | some l =>
            (locAfterFirstWord (((rest.drop w).take l).getLastD 'a')
              (rest.drop (w + l))).map (fun t => p.length + w + l + t)
          | none => none
      else none)

def scanLocations (cs : Chars) : List Chars := scanAll locMatchAt (cs.length + 1) false cs

/-- The replacement `l.replace(/^(?:in|at|from|to)\s+/i, '')`: strip the leading
preposition and whitespace from a location match. -/
def stripLocPrep (m : Chars) : Chars :=
  match locPreps.findSome? (fun p =>
      match ciPrefixLen p m with
      | some pl =>
        let w := ((m.drop pl).takeWhile isRegexWs).length
        if w = 0 then none else some (pl + w)
      | none => none) with
  | some k => m.drop k
  | none => m

/-! The key-phrase regex
`"[^"]{10,100}"|'[^']{10,100}'|stated that [^.]{10,80}|claimed that [^.]{10,80}|testified that [^.]{10,80}`
(case-insensitive). -/

def quoteBranch (q : Char) (cs : Chars) : Option Nat :=
  match cs with
  | c :: rest =>
    if c = q then
      let run := (rest.takeWhile (fun d => d ≠ q)).length
      if 10 ≤ run && run ≤ 100 && (rest.drop run).head? = some q then some (run + 2)
      else none
    else none
  | [] => none

def reportedBranch (lit : Chars) (cs : Chars) : Option Nat :=
  match ciPrefixLen lit cs with
  | some ll =>
    let run := ((cs.drop ll).takeWhile (fun d => d ≠ '.')).length
    let k := min run 80
    if 10 ≤ k then some (ll + k) else none
  | none => none

def phraseMatchAt (_prevWord : Bool) (cs : Chars) : Option Nat :=
  quoteBranch dquoteC cs <|> quoteBranch squoteC cs
    <|> reportedBranch "stated that ".toList cs
    <|> reportedBranch "claimed that ".toList cs
    <|> reportedBranch "testified that ".toList cs

def scanPhrases (cs : Chars) : List Chars := scanAll phraseMatchAt (cs.length + 1) false cs

/-! Sentence splitting for the per-document summary:
`content.split(/[.!?]+/)`. -/

def isSentSep (c : Char) : Bool := (c = '.' || c = '!' || c = '?')

def splitSentencesAux : Nat → Chars → Chars → List Chars
  | 0, cur, _ => [cur.reverse]
  | _ + 1, cur, [] => [cur.reverse]
  | fuel + 1, cur, c :: rest =>
    if isSentSep c then cur.reverse :: splitSentencesAux fuel [] (rest.dropWhile isSentSep)
    else splitSentencesAux fuel (c :: cur) rest

def splitSentences (cs : Chars) : List Chars := splitSentencesAux (cs.length + 1) [] cs

/-! ## `extractDocumentDetails` -/

/-- The three-field structural type
`{ name: string; content?: string; type: string }` that both
`extractDocumentDetails` and `generateFallbackQuestions` receive; the
routes pass `session.documents` here via TypeScript structural
subtyping, which the embedding models by projecting to these fields. -/
structure GenDoc where
  name : String
  content : Option String
  type : String
deriving DecidableEq, Repr

structure DocSummary where
  name : String
  summary : String
deriving DecidableEq, Repr

structure ExtractedDetails where
  names : List String
  dates : List String
  amounts : List String
  locations : List String
  keyPhrases : List String
  documentSummaries : List DocSummary
deriving DecidableEq, Repr

/-- JavaScript `Set.prototype.add` followed by `Array.from`: insertion-ordered,
deduplicating accumulation. -/
def addUnique (l : List String) (x : String) : List String :=
  if l.contains x then l else l ++ [x]

def addAllUnique (l : List String) (xs : List String) : List String := xs.foldl addUnique l

/-- Extract key details from document content for fallback questions
(deposition route, source lines 146–202). -/
def extractDocumentDetails (documents : List GenDoc) : ExtractedDetails :=
  documents.foldl (fun acc doc =>
    let content := (doc.content.getD "").toList
    let nameMatches := scanNames content
    let dateMatches := scanDates content
    let amountMatches := scanAmounts content
    let locationMatches := scanLocations content
    let phraseMatches := scanPhrases content
    let sentences :=
      ((splitSentences content).filter (fun s => 20 < (jsTrim s).length)).take 2
    { names := addAllUnique acc.names ((nameMatches.take 5).map String.mk)
      dates := addAllUnique acc.dates ((dateMatches.take 5).map String.mk)
      amounts := addAllUnique acc.amounts ((amountMatches.take 3).map String.mk)
      locations :=
        addAllUnique acc.locations ((locationMatches.take 3).map (fun l => String.mk (stripLocPrep l)))
      keyPhrases := addAllUnique acc.keyPhrases ((phraseMatches.take 3).map String.mk)
      documentSummaries :=
        if sentences.length > 0 then
          acc.documentSummaries
            ++ [{ name := doc.name
                  summary := String.mk ((jsTrim (List.intercalate ('.' :: [' ']) sentences)).take 200) }]
        else acc.documentSummaries })
    ⟨[], [], [], [], [], []⟩

/-! ## Record types (from `lib/types.ts` and `lib/deposition-types.ts`)

Enum-like union fields (`category`, `priority`, `severity`,
`difficulty`, `status`) are modelled as `String`, which is their
runtime representation; the validators below are the membership checks
the source performs. -/

structure CrossExamQuestion where
  id : String
  question : String
  category : String
  difficulty : String
  suggestedApproach : Option String
  weakPoint : Option String
  followUpQuestions : Option (List String)
  documentReference : Option String
deriving DecidableEq, Repr

structure DepositionQuestion where
  id : String
  question : String
  topic : String
  category : String
  priority : String
  documentReference : Option String
  pageReference : Option String
  rationale : Option String
  followUpQuestions : Option (List String)
  exhibitToShow : Option String
deriving DecidableEq, Repr

structure TestimonyGap where
  id : String
  description : String
  documentReferences : List String
  severity : String
  suggestedQuestions : List String
deriving DecidableEq, Repr

structure ContradictionSource where
  document : String
  excerpt : String
  page : Option String
deriving DecidableEq, Repr

structure Contradiction where
  id : String
  description : String
  source1 : ContradictionSource
  source2 : ContradictionSource
  severity : String
  suggestedQuestions : List String
deriving DecidableEq, Repr

structure TimelineEvent where
  date : String
  event : String
  source : String
deriving DecidableEq, Repr

structure AnalysisResult where
  keyThemes : List String
  timelineEvents : List TimelineEvent
  witnesses : List String
  keyExhibits : List String
deriving DecidableEq, Repr

/-- The output shape both deposition generation paths produce. -/
structure DepGenResult where
  gaps : List TestimonyGap
  contradictions : List Contradiction
  questions : List DepositionQuestion
  analysis : AnalysisResult
deriving DecidableEq, Repr

/-! ## The deposition fallback synthesizer
(`generateFallbackQuestions`, deposition route, source lines 204-442) -/

namespace Depositions

def mkDateGap (docNames : List String) (d0 : String) : TestimonyGap :=
  { id := ""
    description := "Timeline details around " ++ d0 ++ " need clarification - the documents reference this date but lack context about what specifically occurred"
    documentReferences := docNames.take 2
    severity := "moderate"
    suggestedQuestions :=
      [ "What specifically happened on " ++ d0 ++ "?"
      , "Who else was involved in the events of " ++ d0 ++ "?"
      , "What led up to the events on " ++ d0 ++ "?" ] }

def mkNamesGap (docNames : List String) (n0 n1 : String) : TestimonyGap :=
  { id := ""
    description := "The relationship and communications between " ++ n0 ++ " and " ++ n1 ++ " are not fully documented"
    documentReferences := docNames.take 1
    severity := "significant"
    suggestedQuestions :=
      [ "What was the nature of your communications with " ++ n1 ++ "?"
      , "How often did you interact with " ++ n1 ++ " during this period?"
      , "Were there any undocumented conversations with " ++ n1 ++ "?" ] }

def mkDateQuestion (docNames : List String) (index : Nat) (date : String) : DepositionQuestion :=
  { id := ""
    question := "The documents reference " ++ date ++ ". Walk me through exactly what happened on that date and your involvement."
    topic := "Timeline of Events"
    category := "timeline"
    priority := if index = 0 then "high" else "medium"
    documentReference := docNames.head?
    pageReference := none
    rationale := some "This date appears in the documents and establishing the specific events is critical to understanding the sequence of events."
    followUpQuestions := some
      [ "Who else was present on " ++ date ++ "?"
      , "What communications occurred before and after " ++ date ++ "?"
      , "Do you have any documents from " ++ date ++ " that haven\x27t been produced?" ]
    exhibitToShow := none }

def mkNameQuestion (deponentName : String) (docNames : List String) (index : Nat)
    (nm : String) : DepositionQuestion :=
  { id := ""
    question := deponentName ++ ", the documents mention " ++ nm ++ ". Please describe your relationship with " ++ nm ++ " and any interactions you had with them regarding this matter."
    topic := "Witness Relationships"
    category := "foundation"
    priority := if index = 0 then "high" else "medium"
    documentReference := docNames.head?
    pageReference := none
    rationale := some (nm ++ " appears to be a key individual in the documents and understanding the deponent\x27s interactions with them is essential.")
    followUpQuestions := some
      [ "When did you last communicate with " ++ nm ++ "?"
      , "What did " ++ nm ++ " tell you about this matter?"
      , "Did you ever have any disagreements with " ++ nm ++ " about this?" ]
    exhibitToShow := none }

def mkAmountQuestion (docNames : List String) (amount : String) : DepositionQuestion :=
  { id := ""
    question := "The documents reference " ++ amount ++ ". Explain what this amount represents and how it was determined."
    topic := "Financial Details"
    category := "foundation"
    priority := "high"
    documentReference := docNames.head?
    pageReference := none
    rationale := some "Financial details are often central to disputes and this specific amount needs explanation."
    followUpQuestions := some
      [ "Who approved this amount?"
      , "Were there any disputes about " ++ amount ++ "?"
      , "How was " ++ amount ++ " calculated?" ]
    exhibitToShow := none }

/-- The cleanup `phrase.replace(/^["']|["']$/g, '').substring(0, 100)`. -/
def cleanPhrase (phrase : String) : String :=
  let cs := phrase.toList
  let cs := match cs with
    | c :: rest => if c = dquoteC || c = squoteC then rest else cs
    | [] => cs
  let cs := match cs.reverse with
    | c :: rest => if c = dquoteC || c = squoteC then rest.reverse else cs
    | [] => cs
  String.mk (cs.take 100)

def mkPhraseQuestion (docNames : List String) (phrase : String) : DepositionQuestion :=
  { id := ""
    question := "The documents contain the statement: \"" ++ cleanPhrase phrase ++ "...\" What did you mean by this and what were the circumstances?"
    topic := "Prior Statements"
    category := "impeachment"
    priority := "high"
    documentReference := docNames.head?
    pageReference := none
    rationale := some "This statement from the documents may be significant and the deponent should explain its context."
    followUpQuestions := some
      [ "Do you stand by this statement today?"
      , "Who else was aware of this?"
      , "What happened as a result of this?" ]
    exhibitToShow := none }

def mkSummaryQuestion (ds : DocSummary) : DepositionQuestion :=
  { id := ""
    question := "Looking at " ++ ds.name ++ ", it discusses: \"" ++ ds.summary ++ "...\" What is your understanding of this and your role in it?"
    topic := "Document Content"
    category := "foundation"
    priority := "high"
    documentReference := some ds.name
    pageReference := none
    rationale := some "This document contains key information that the deponent should explain."
    followUpQuestions := some
      [ "Were you involved in creating this document?"
      , "Is the information in this document accurate?"
      , "What actions were taken based on this document?" ]
    exhibitToShow := none }

def mkPriorTestimonyQuestion (ptName : String) : DepositionQuestion :=
  { id := ""
    question := "In your prior testimony in " ++ ptName ++ ", you made certain statements. Have any of your recollections changed since then?"
    topic := "Prior Testimony"
    category := "impeachment"
    priority := "high"
    documentReference := some ptName
    pageReference := none
    rationale := some "Comparing current testimony to prior statements can reveal inconsistencies."
    followUpQuestions := some
      [ "What specifically has changed in your recollection?"
      , "Why do you remember things differently now?"
      , "Have you reviewed your prior testimony before today?" ]
    exhibitToShow := none }

def mkDocGapsQuestion (docNames : List String) : DepositionQuestion :=
  { id := ""
    question := "The documents produced cover certain time periods but there appear to be gaps. What communications or documents exist from the periods not covered?"
    topic := "Document Gaps"
    category := "gap"
    priority := "high"
    documentReference := docNames.head?
    pageReference := none
    rationale := some "Identifying missing documents is critical to understanding the complete picture."
    followUpQuestions := some
      [ "Were any documents destroyed or deleted?"
      , "Who else might have relevant documents?"
      , "What was your document retention practice during this period?" ]
    exhibitToShow := none }

def mkConsistencyQuestion (docNames : List String) : DepositionQuestion :=
  { id := ""
    question := "I\x27ve reviewed " ++ docNames.getD 0 "" ++ " and " ++ docNames.getD 1 "" ++ ". There appear to be differences in how events are described. Can you explain any discrepancies between these documents?"
    topic := "Document Consistency"
    category := "contradiction"
    priority := "high"
    documentReference := docNames.head?
    pageReference := none
    rationale := some "Multiple documents may contain inconsistent information that needs explanation."
    followUpQuestions := some
      [ "Which document is more accurate?"
      , "When were each of these documents created?"
      , "Who else reviewed these documents?" ]
    exhibitToShow := none }

/-- One padding question; `n` is `questions.length` at push time.  On an
empty document list the JavaScript `documents[questions.length %
documents.length]` would throw (`NaN` index); the default is
unreachable in the route, which only calls the synthesizer with a
non-empty document list. -/
def padQuestion (documents : List GenDoc) (n : Nat) : DepositionQuestion :=
  let doc := documents.getD (n % documents.length) ⟨"", none, ""⟩
  { id := ""
    question := "Regarding " ++ doc.name ++ ", explain your involvement in the matters described in this document and what actions you took."
    topic := "Document Involvement"
    category := "foundation"
    priority := "medium"
    documentReference := some doc.name
    pageReference := none
    rationale := some "Understanding the deponent\x27s specific involvement with each document is essential."
    followUpQuestions := some
      [ "What was your role in creating or receiving this document?"
      , "Who else was involved?"
      , "What happened after this document was created?" ]
    exhibitToShow := none }

/-- The `while (questions.length < 10)` padding loop.  Each iteration
appends exactly one question, so ten iterations of fuel always suffice
to leave the loop condition false; `padQuestions_length` below proves
the floor is reached. -/
def padQuestions (documents : List GenDoc) : Nat → List DepositionQuestion → List DepositionQuestion
  | 0, qs => qs
  | fuel + 1, qs =>
    if qs.length < 10 then padQuestions documents fuel (qs ++ [padQuestion documents qs.length])
    else qs

/-- The two document-specific gaps (dates gap, names gap), pushed before
any question is created. -/
def fallbackGaps (docNames : List String) (details : ExtractedDetails) : List TestimonyGap :=
  (if details.dates.length > 0 then [mkDateGap docNames (details.dates.headD "")] else [])
    ++ (if details.names.length > 1 then
          [mkNamesGap docNames (details.names.getD 0 "") (details.names.getD 1 "")]
        else [])

/-- The question pushes preceding the padding loop, in source order:
per-date, per-name, per-amount, per-phrase, per-summary questions, the
prior-testimony question when such a document exists, the always-pushed
document-gaps question, and the cross-document consistency question when
there are at least two documents. -/
def fallbackQuestionsCore (deponentName : String) (docNames : List String)
    (details : ExtractedDetails) (documents : List GenDoc) : List DepositionQuestion :=
  (details.dates.enum.filterMap (fun p =>
      if p.1 < 3 then some (mkDateQuestion docNames p.1 p.2) else none))
    ++ (details.names.enum.filterMap (fun p =>
        if p.1 < 3 && p.2 ≠ deponentName then
          some (mkNameQuestion deponentName docNames p.1 p.2)
        else none))
    ++ (details.amounts.enum.filterMap (fun p =>
        if p.1 < 2 then some (mkAmountQuestion docNames p.2) else none))
    ++ (details.keyPhrases.enum.filterMap (fun p =>
        if p.1 < 3 then some (mkPhraseQuestion docNames p.2) else none))
    ++ (details.documentSummaries.enum.filterMap (fun p =>
        if p.1 < 2 then some (mkSummaryQuestion p.2) else none))
    ++ (match (documents.filter (fun d => d.type = "prior_testimony" || d.type = "transcript")).head? with
        | some pt => [mkPriorTestimonyQuestion pt.name]
        | none => [])
    ++ [mkDocGapsQuestion docNames]
    ++ (if documents.length > 1 then [mkConsistencyQuestion docNames] else [])

/-- The function `generateFallbackQuestions` (deposition route): document-specific
fallback gaps, questions and analysis.  `uuid` models the successive
`uuidv4()` calls; in the source the two possible gaps are created before
any question, so gaps take the first identifiers. -/
def generateFallbackQuestions (uuid : Nat → String) (caseName deponentName : String)
    (documents : List GenDoc) : DepGenResult :=
  let _ := caseName
  let docNames := documents.map (·.name)
  let details := extractDocumentDetails documents
  let gaps0 : List TestimonyGap := fallbackGaps docNames details
  let questions0 : List DepositionQuestion :=
    padQuestions documents 10 (fallbackQuestionsCore deponentName docNames details documents)
  let analysis : AnalysisResult :=
    { keyThemes :=
        if details.names.length > 0 then
          [ "Involvement of " ++ String.intercalate " and " (details.names.take 2)
          , "Timeline of Events", "Document Authenticity" ]
        else ["Timeline of Events", "Document Authenticity", "Communications"]
      timelineEvents := details.dates.enum.map (fun p =>
        { date := p.2
          event := "Event referenced in documents"
          source := docNames.getD (p.1 % docNames.length) "" })
      witnesses := details.names.take 5
      keyExhibits := docNames.take 5 }
  { gaps := gaps0.enum.map (fun p => { p.2 with id := uuid p.1 })
    contradictions := []
    questions := questions0.enum.map (fun p => { p.2 with id := uuid (gaps0.length + p.1) })
    analysis := analysis }

end Depositions

/-! ## The witness-prep fallback synthesizer
(`generateFallbackQuestions`, sessions route, source lines 184-394) -/

namespace Sessions

structure SessDoc where
  name : String
  content : Option String
deriving DecidableEq, Repr

/-- Evaluate `documents[0]?.name || dflt`. -/
def firstDocName (documents : List SessDoc) (dflt : String) : String :=
  match documents.head? with
  | some d => if d.name = "" then dflt else d.name
  | none => dflt

/-- The function `generateFallbackQuestions` (witness-prep route): a fixed list of
twenty questions, fifteen document-flavoured and five general.  `uuid`
models the successive `uuidv4()` calls. -/
def generateFallbackQuestions (uuid : Nat → String) (caseName witnessName : String)
    (documents : List SessDoc) : List CrossExamQuestion :=
  let _ := caseName
  let _ := witnessName
  let docNames := String.intercalate ", " (documents.map (·.name))
  let fallbackQuestions : List CrossExamQuestion :=
    [ { id := ""
        question := "You\x27ve reviewed documents related to this case. Can you tell us exactly when you first became aware of the events described in " ++ firstDocName documents "the documents" ++ "?"
        category := "timeline", difficulty := "medium"
        suggestedApproach := some "Be specific about dates and times. If uncertain, say so."
        weakPoint := some "Timeline inconsistencies"
        followUpQuestions := some ["What were you doing at that time?", "Who else was present when you learned of this?"]
        documentReference := some (firstDocName documents "Case Documents") }
    , { id := ""
        question := "Looking at the documents you\x27ve reviewed, can you identify any statements that you now believe may have been inaccurate?"
        category := "credibility", difficulty := "hard"
        suggestedApproach := some "If there are inaccuracies, acknowledge them. Honesty builds credibility."
        weakPoint := some "Prior inconsistent statements"
        followUpQuestions := some ["Why didn\x27t you correct this earlier?", "What other statements might you need to revise?"]
        documentReference := some docNames }
    , { id := ""
        question := "You mentioned specific details in your statement. How can you be so certain about these details after all this time?"
        category := "credibility", difficulty := "medium"
        suggestedApproach := some "Explain what makes certain memories stand out. Acknowledge limitations where appropriate."
        weakPoint := some "Memory reliability"
        followUpQuestions := some ["Did you take notes at the time?", "Have you discussed these events with anyone else?"]
        documentReference := some (firstDocName documents "Case Documents") }
    , { id := ""
        question := "Based on the documents in this case, there appear to be gaps in the timeline. Can you explain what happened during these periods?"
        category := "timeline", difficulty := "medium"
        suggestedApproach := some "If you don\x27t know, say so. Don\x27t speculate."
        weakPoint := some "Incomplete knowledge"
        followUpQuestions := some ["Were you present during this time?", "Do you know who might have information about this period?"]
        documentReference := some docNames }
    , { id := ""
        question := "The documents suggest a particular sequence of events. Do you agree with that sequence, or do you recall it differently?"
        category := "inconsistency", difficulty := "hard"
        suggestedApproach := some "If you disagree, explain specifically what you recall differently and why."
        weakPoint := some "Contradicting documentary evidence"
        followUpQuestions := some ["What specifically do you recall differently?", "Why should your memory be trusted over the documents?"]
        documentReference := some (firstDocName documents "Case Documents") }
    , { id := ""
        question := "Were you under any stress or distraction at the time of the events described in these documents?"
        category := "foundation", difficulty := "medium"
        suggestedApproach := some "Acknowledge any factors that might have affected your perception."
        weakPoint := some "Impaired observation"
        followUpQuestions := some ["How might that have affected what you observed?", "Were you taking any medications at the time?"]
        documentReference := some docNames }
    , { id := ""
        question := "Looking at the specific details in the documents, how do you explain any discrepancies between what\x27s written and what you\x27re testifying to today?"
        category := "inconsistency", difficulty := "hard"
        suggestedApproach := some "Address discrepancies directly. Explain if documents are incomplete or if your memory has been refreshed."
        weakPoint := some "Documentary contradictions"
        followUpQuestions := some ["Which version do you believe is correct?", "Were you being truthful then or are you being truthful now?"]
        documentReference := some (firstDocName documents "Case Documents") }
    , { id := ""
        question := "Can you explain your role in the events documented in " ++ firstDocName documents "the case materials" ++ "?"
        category := "foundation", difficulty := "easy"
        suggestedApproach := some "Clearly explain your involvement and the basis for your knowledge."
        weakPoint := some "Limited firsthand knowledge"
        followUpQuestions := some ["Were you directly involved in these events?", "How do you have knowledge of what you\x27re testifying about?"]
        documentReference := some (firstDocName documents "Case Documents") }
    , { id := ""
        question := "The documents reference specific communications. Did you keep copies of all relevant communications?"
        category := "foundation", difficulty := "medium"
        suggestedApproach := some "Explain your document retention practices honestly."
        weakPoint := some "Missing evidence"
        followUpQuestions := some ["Why didn\x27t you keep copies?", "What happened to those communications?"]
        documentReference := some docNames }
    , { id := ""
        question := "Is there anything in these documents that you believe is false or misleading?"
        category := "inconsistency", difficulty := "hard"
        suggestedApproach := some "If you believe something is false, explain specifically what and why."
        weakPoint := some "Challenging documentary evidence"
        followUpQuestions := some ["How do you know it\x27s false?", "Do you have any evidence to support your claim that it\x27s false?"]
        documentReference := some docNames }
    , { id := ""
        question := "Regarding the events in " ++ firstDocName documents "the documents" ++ ", who else was present that could corroborate your account?"
        category := "foundation", difficulty := "medium"
        suggestedApproach := some "Identify other witnesses who can support your testimony."
        weakPoint := some "Lack of corroboration"
        followUpQuestions := some ["Have you spoken with them about this case?", "Would they agree with your version of events?"]
        documentReference := some (firstDocName documents "Case Documents") }
    , { id := ""
        question := "The documents indicate certain actions were taken. Were you consulted before these actions occurred?"
        category := "foundation", difficulty := "medium"
        suggestedApproach := some "Be clear about your level of involvement in decision-making."
        weakPoint := some "Limited involvement or knowledge"
        followUpQuestions := some ["Did you have any input in the decision?", "Did you express any objections at the time?"]
        documentReference := some docNames }
    , { id := ""
        question := "How soon after the events described in the documents did you first document your recollection?"
        category := "timeline", difficulty := "medium"
        suggestedApproach := some "Explain when and how you recorded your memories."
        weakPoint := some "Delayed documentation affects reliability"
        followUpQuestions := some ["Why did you wait to document your recollection?", "What prompted you to finally document it?"]
        documentReference := some (firstDocName documents "Case Documents") }
    , { id := ""
        question := "Have you reviewed these documents with anyone before today\x27s testimony?"
        category := "credibility", difficulty := "easy"
        suggestedApproach := some "Be honest about document review. It\x27s normal to prepare."
        weakPoint := some "Potential for coached testimony"
        followUpQuestions := some ["Who did you review them with?", "Did anyone point out specific things you should remember?"]
        documentReference := some docNames }
    , { id := ""
        question := "Is there any information relevant to this case that is NOT contained in these documents?"
        category := "foundation", difficulty := "hard"
        suggestedApproach := some "Disclose any relevant information not in the documents."
        weakPoint := some "Incomplete documentary record"
        followUpQuestions := some ["Why wasn\x27t that information documented?", "Who else might know about this undocumented information?"]
        documentReference := some docNames }
    , { id := ""
        question := "How did you prepare for your testimony today?"
        category := "general", difficulty := "easy"
        suggestedApproach := some "Be honest about preparation. It\x27s normal to review documents with counsel."
        weakPoint := some "May suggest coaching"
        followUpQuestions := some ["Who did you meet with to prepare?", "How many times did you meet with them?"]
        documentReference := some "General Cross-Examination" }
    , { id := ""
        question := "Are you being compensated in any way for your testimony, or do you have any financial interest in the outcome of this case?"
        category := "general", difficulty := "easy"
        suggestedApproach := some "Answer directly. Expert witnesses are typically compensated; fact witnesses usually are not."
        weakPoint := some "Potential bias"
        followUpQuestions := some ["How much are you being paid?", "Does your compensation depend on the outcome of this case?"]
        documentReference := some "General Cross-Examination" }
    , { id := ""
        question := "What is your relationship to the parties in this case?"
        category := "general", difficulty := "easy"
        suggestedApproach := some "Describe relationships factually without editorializing."
        weakPoint := some "Potential bias based on relationships"
        followUpQuestions := some ["How long have you known them?", "Have you ever had any conflicts with them?"]
        documentReference := some "General Cross-Examination" }
    , { id := ""
        question := "How would you describe your memory in general? Is there anything about your testimony today that you\x27re not completely certain about?"
        category := "general", difficulty := "medium"
        suggestedApproach := some "Be honest about your memory capabilities. It\x27s okay to acknowledge uncertainty."
        weakPoint := some "Self-assessment of reliability"
        followUpQuestions := some ["What specifically are you uncertain about?", "Have you ever forgotten important details in the past?"]
        documentReference := some "General Cross-Examination" }
    , { id := ""
        question := "Have you ever given testimony in any proceeding that was later found to be inaccurate or that you needed to correct?"
        category := "general", difficulty := "hard"
        suggestedApproach := some "Answer honestly. If yes, explain the circumstances."
        weakPoint := some "Prior credibility issues"
        followUpQuestions := some ["What were the circumstances of that inaccuracy?", "How did you discover that your testimony was inaccurate?"]
        documentReference := some "General Cross-Examination" } ]
  fallbackQuestions.enum.map (fun p => { p.2 with id := uuid p.1 })

end Sessions

/-! ## Field coercion on the LLM-success path

The inline `.map` transforms of the two `POST` handlers.  A transform
returns `none` where the JavaScript would throw (property access on a
`null` element, `.map` on a non-array); the handler catches such a
throw in its `catch (apiError)` block and falls back. -/

/-- JavaScript `Array.prototype.map` over a callback that can throw: `none` as
soon as one element throws, the mapped list otherwise. -/
def mapMO {α β : Type} (f : α → Option β) : List α → Option (List β)
  | [] => some []
  | a :: l =>
    match f a with
    | none => none
    | some b => (mapMO f l).map (b :: ·)

namespace Sessions

def coerceQuestion (uuid : Nat → String) (k : Nat) (q : Json) : Option CrossExamQuestion :=
  match q with
  | Json.null => none
  | _ => some
    { id := uuid k
      question := jsStringOr (Json.jsGet q "question") "Question not available"
      category := validateCategory (jsStringOr (Json.jsGet q "category") "general")
      difficulty := validateDifficulty (jsStringOr (Json.jsGet q "difficulty") "medium")
      suggestedApproach := jsStringOpt (Json.jsGet q "suggestedApproach")
      weakPoint := jsStringOpt (Json.jsGet q "weakPoint")
      followUpQuestions := jsStringArrayOpt (Json.jsGet q "followUpQuestions")
      documentReference := jsStringOpt (Json.jsGet q "documentReference") }

/-- The transform `questionsData.slice(0, 20).map(...)`: the cap to twenty entries and
the per-question coercion. -/
def coerceQuestions (uuid : Nat → String) (questionsData : List Json) :
    Option (List CrossExamQuestion) :=
  mapMO (fun p => coerceQuestion uuid p.1 p.2) (questionsData.take 20).enum

end Sessions

namespace Depositions

def coerceGap (uuid : Nat → String) (k : Nat) (g : Json) : Option TestimonyGap :=
  match g with
  | Json.null => none
  | _ => some
    { id := uuid k
      description := jsStringOr (Json.jsGet g "description") ""
      documentReferences := jsStringArrayOrEmpty (Json.jsGet g "documentReferences")
      severity := validateSeverity (jsStringOr (Json.jsGet g "severity") "moderate")
      suggestedQuestions := jsStringArrayOrEmpty (Json.jsGet g "suggestedQuestions") }

def coerceSource (s : Option Json) : ContradictionSource :=
  { document := jsStringOr (jsOptChain s "document") ""
    excerpt := jsStringOr (jsOptChain s "excerpt") ""
    page := jsStringOpt (jsOptChain s "page") }

def coerceContradiction (uuid : Nat → String) (k : Nat) (c : Json) : Option Contradiction :=
  match c with
  | Json.null => none
  | _ => some
    { id := uuid k
      description := jsStringOr (Json.jsGet c "description") ""
      source1 := coerceSource (Json.jsGet c "source1")
      source2 := coerceSource (Json.jsGet c "source2")
      severity := validateSeverity (jsStringOr (Json.jsGet c "severity") "moderate")
      suggestedQuestions := jsStringArrayOrEmpty (Json.jsGet c "suggestedQuestions") }

def coerceDepQuestion (uuid : Nat → String) (k : Nat) (q : Json) : Option DepositionQuestion :=
  match q with
  | Json.null => none
  | _ => some
    { id := uuid k
      question := jsStringOr (Json.jsGet q "question") "Question not available"
      topic := jsStringOr (Json.jsGet q "topic") "General"
      category := validateCategory (jsStringOr (Json.jsGet q "category") "general")
      priority := validatePriority (jsStringOr (Json.jsGet q "priority") "medium")
      documentReference := jsStringOpt (Json.jsGet q "documentReference")
      pageReference := jsStringOpt (Json.jsGet q "pageReference")
      rationale := jsStringOpt (Json.jsGet q "rationale")
      followUpQuestions := jsStringArrayOpt (Json.jsGet q "followUpQuestions")
      exhibitToShow := jsStringOpt (Json.jsGet q "exhibitToShow") }

/-- The transform `(parsedData.questions as Array<...>).slice(0, 20).map(...)`. -/
def coerceQuestions (uuid : Nat → String) (offset : Nat) (questionsJson : List Json) :
    Option (List DepositionQuestion) :=
  mapMO (fun p => coerceDepQuestion uuid (offset + p.1) p.2) (questionsJson.take 20).enum

/-- Evaluate `x || []` for an array-typed field: a falsy or missing value becomes
the empty list, a truthy non-array throws at the following `.map`. -/
def jsArrayFieldOrEmpty (o : Option Json) : Option (List Json) :=
  match o with
  | some (Json.arr l) => some l
  | some v => if Json.jsTruthy v then none else some []
  | none => some []

def coerceTimelineEvent (e : Json) : Option TimelineEvent :=
  match e with
  | Json.null => none
  | _ => some
    { date := jsStringOr (Json.jsGet e "date") ""
      event := jsStringOr (Json.jsGet e "event") ""
      source := jsStringOr (Json.jsGet e "source") "" }

def coerceAnalysis (parsedData : Json) : Option AnalysisResult :=
  let analysisData :=
    match Json.jsGet parsedData "analysis" with
    | some v => if Json.jsTruthy v then v else Json.obj []
    | none => Json.obj []
  match (match Json.jsGet analysisData "timelineEvents" with
         | some (Json.arr l) => mapMO coerceTimelineEvent l
         | _ => some ([] : List TimelineEvent)) with
  | none => none
  | some tes => some
    { keyThemes := jsStringArrayOrEmpty (Json.jsGet analysisData "keyThemes")
      timelineEvents := tes
      witnesses := jsStringArrayOrEmpty (Json.jsGet analysisData "witnesses")
      keyExhibits := jsStringArrayOrEmpty (Json.jsGet analysisData "keyExhibits") }

/-- The deposition success-path transform (source lines 556-613);
reached only when `parsedData.questions` is truthy. -/
def transformParsed (uuid : Nat → String) (parsedData : Json) : Option DepGenResult := do
  let gapsJson ← jsArrayFieldOrEmpty (Json.jsGet parsedData "gaps")
  let gaps ← mapMO (fun p => coerceGap uuid p.1 p.2) gapsJson.enum
  let consJson ← jsArrayFieldOrEmpty (Json.jsGet parsedData "contradictions")
  let cons ← mapMO (fun p => coerceContradiction uuid (gapsJson.length + p.1) p.2) consJson.enum
  let qsJson ←
    (match Json.jsGet parsedData "questions" with
     | some (Json.arr l) => some l
     | _ => none)
  let qs ← coerceQuestions uuid (gapsJson.length + consJson.length) qsJson
  let analysis ← coerceAnalysis parsedData
  pure ⟨gaps, cons, qs, analysis⟩

end Depositions

/-! ## Session aggregates and the in-memory stores

The process-wide `Map` stores are modelled as functions from session
identity to an optional session; a mutation returns the updated store.
`new Date()` timestamps are injected (`now`) where a store operation
sets one.  The `Partial<...>` update argument of the update helpers is
modelled as a field-update function. -/

structure DocMetadata where
  witness : Option String
  date : Option String
  pageCount : Option Nat
  source : Option String
deriving DecidableEq, Repr

structure DepositionDocument where
  id : String
  name : String
  type : String
  fileType : String
  size : Nat
  uploadedAt : Nat
  objectId : Option String
  content : Option String
  status : String
  metadata : Option DocMetadata
deriving DecidableEq, Repr

structure OutlineSection where
  id : String
  title : String
  order : Nat
  questions : List DepositionQuestion
  notes : Option String
  estimatedTime : Option Nat
deriving DecidableEq, Repr

structure DepositionOutline where
  id : String
  title : String
  sections : List OutlineSection
  createdAt : Nat
  updatedAt : Nat
deriving DecidableEq, Repr

structure DepositionSession where
  id : String
  deponentName : String
  caseName : String
  caseNumber : Option String
  depositionDate : Option Nat
  createdAt : Nat
  documents : List DepositionDocument
  gaps : List TestimonyGap
  contradictions : List Contradiction
  questions : List DepositionQuestion
  outline : Option DepositionOutline
  status : String
  analysis : Option AnalysisResult
deriving DecidableEq, Repr

structure Document where
  id : String
  name : String
  type : String
  size : Nat
  uploadedAt : Nat
  objectId : Option String
  content : Option String
  status : String
deriving DecidableEq, Repr

structure PracticeExchange where
  id : String
  questionId : String
  question : String
  witnessResponse : String
  aiFollowUp : Option String
  feedback : Option String
  timestamp : Nat
  duration : Nat
deriving DecidableEq, Repr

structure PracticeSession where
  id : String
  witnessName : String
  caseName : String
  createdAt : Nat
  documents : List Document
  questions : List CrossExamQuestion
  status : String
  practiceHistory : List PracticeExchange
  totalDuration : Nat
  recordingUrl : Option String
deriving DecidableEq, Repr

namespace Depositions

abbrev DepoStore := String → Option DepositionSession

def storeSet (store : DepoStore) (k : String) (s : DepositionSession) : DepoStore :=
  fun k2 => if k2 = k then some s else store k2

def getDepositionSession (store : DepoStore) (sessionId : String) : Option DepositionSession :=
  store sessionId

def updateDepositionSession (store : DepoStore) (sessionId : String)
    (upd : DepositionSession → DepositionSession) : DepoStore × Option DepositionSession :=
  match store sessionId with
  | none => (store, none)
  | some s =>
    let s2 := upd s
    (storeSet store sessionId s2, some s2)

def setDepositionQuestions (store : DepoStore) (sessionId : String)
    (questions : List DepositionQuestion) : DepoStore × Option DepositionSession :=
  match store sessionId with
  | none => (store, none)
  | some s =>
    let s2 := { s with questions := questions, status := "ready" }
    (storeSet store sessionId s2, some s2)

def setAnalysisResults (store : DepoStore) (sessionId : String) (gaps : List TestimonyGap)
    (contradictions : List Contradiction) (analysis : AnalysisResult) :
    DepoStore × Option DepositionSession :=
  match store sessionId with
  | none => (store, none)
  | some s =>
    let s2 := { s with gaps := gaps, contradictions := contradictions, analysis := some analysis }
    (storeSet store sessionId s2, some s2)

/-- The section-rebuilding loop of `reorderOutlineSections`: for each
`i`, push the first section whose id is `sectionIds[i]` with its `order`
set to `i`; an id matching no section pushes nothing but still advances
`i`. -/
def reorderSectionsLoop (sections : List OutlineSection) : List String → Nat → List OutlineSection
  | [], _ => []
  | sid :: rest, i =>
    match sections.find? (fun s => s.id == sid) with
    | some s => { s with order := i } :: reorderSectionsLoop sections rest (i + 1)
    | none => reorderSectionsLoop sections rest (i + 1)

/-- The operation `reorderOutlineSections` (source lines 166-182); `now` models the
`new Date()` written to `outline.updatedAt`. -/
def reorderOutlineSections (store : DepoStore) (sessionId : String)
    (sectionIds : List String) (now : Nat) : DepoStore × Option DepositionSession :=
  match store sessionId with
  | none => (store, none)
  | some s =>
    match s.outline with
    | none => (store, none)
    | some o =>
      let o2 := { o with sections := reorderSectionsLoop o.sections sectionIds 0, updatedAt := now }
      let s2 := { s with outline := some o2 }
      (storeSet store sessionId s2, some s2)

end Depositions

namespace Sessions

abbrev SessStore := String → Option PracticeSession

def storeSet (store : SessStore) (k : String) (s : PracticeSession) : SessStore :=
  fun k2 => if k2 = k then some s else store k2

def getSession (store : SessStore) (sessionId : String) : Option PracticeSession :=
  store sessionId

def updateSession (store : SessStore) (sessionId : String)
    (upd : PracticeSession → PracticeSession) : SessStore × Option PracticeSession :=
  match store sessionId with
  | none => (store, none)
  | some s =>
    let s2 := upd s
    (storeSet store sessionId s2, some s2)

def setQuestions (store : SessStore) (sessionId : String) (questions : List CrossExamQuestion) :
    SessStore × Option PracticeSession :=
  match store sessionId with
  | none => (store, none)
  | some s =>
    let s2 := { s with questions := questions, status := "ready" }
    (storeSet store sessionId s2, some s2)

end Sessions

/-! ## The generation orchestrators (`POST` route handlers)

The single outbound LLM call is modelled by an injected outcome
(`LLMOutcome`); `llmCalled` in the result records whether execution
reached the `fetch`.  The prompt strings sent to the external
collaborator are elided: no claim depends on them. -/

inductive LLMOutcome where
  | networkError
  | httpError (body : String)
  | okContent (content : String)
deriving DecidableEq, Repr

namespace Depositions

inductive DepResponse where
  | errorResp (status : Nat) (errorMsg : String)
  | okResp (result : DepGenResult) (usedFallback : Bool)
deriving DecidableEq, Repr

/-- The HTTP status of a response (`NextResponse.json` defaults to 200). -/
def DepResponse.status : DepResponse → Nat
  | .errorResp s _ => s
  | .okResp _ _ => 200

structure DepPostOutcome where
  response : DepResponse
  store : DepoStore
  llmCalled : Bool

/-- Handler for `POST /api/depositions/[sessionId]/generate-questions`
(source lines 445-646). -/
def POST (store : DepoStore) (apiKey : Option String) (uuid : Nat → String)
    (llm : LLMOutcome) (sessionId : String) : DepPostOutcome :=
  match getDepositionSession store sessionId with
  | none => ⟨.errorResp 404 "Deposition session not found", store, false⟩
  | some session =>
    if session.documents.length = 0 then
      ⟨.errorResp 400 "No documents uploaded. Please upload case materials first.", store, false⟩
    else
      match apiKey with
      | none =>
        ⟨.errorResp 500 "Case.dev API key not configured. Please add CASEDEV_API_KEY to your .env.local file.", store, false⟩
      | some _ =>
        let (store1, _) :=
          updateDepositionSession store sessionId (fun s => { s with status := "analyzing" })
        let genDocs := session.documents.map (fun d =>
          ({ name := d.name, content := d.content, type := d.type } : GenDoc))
        let runFallback := fun (_ : Unit) =>
          generateFallbackQuestions uuid session.caseName session.deponentName genDocs
        let (result, usedFallback) :=
          match llm with
          | .networkError => (runFallback (), true)
          | .httpError _ => (runFallback (), true)
          | .okContent content =>
            if content = "" then (runFallback (), true)
            else
              match parseJSONResponse content with
              | some parsedData =>
                match Json.jsGet parsedData "questions" with
                | some qv =>
                  if Json.jsTruthy qv then
                    match transformParsed uuid parsedData with
                    | some r => (r, false)
                    | none => (runFallback (), true)
                  else (runFallback (), true)
                | none => (runFallback (), true)
              | none => (runFallback (), true)
        let (store2, _) :=
          setAnalysisResults store1 sessionId result.gaps result.contradictions result.analysis
        let (store3, _) := setDepositionQuestions store2 sessionId result.questions
        ⟨.okResp result usedFallback, store3, true⟩

end Depositions

namespace Sessions

inductive SessResponse where
  | errorResp (status : Nat) (errorMsg : String)
  | okResp (questions : List CrossExamQuestion) (usedFallback : Bool)
deriving DecidableEq, Repr

def SessResponse.status : SessResponse → Nat
  | .errorResp s _ => s
  | .okResp _ _ => 200

structure SessPostOutcome where
  response : SessResponse
  store : SessStore
  llmCalled : Bool

/-- Handler for `POST /api/sessions/[sessionId]/generate-questions`
(source lines 397-551). -/
def POST (store : SessStore) (apiKey : Option String) (uuid : Nat → String)
    (llm : LLMOutcome) (sessionId : String) : SessPostOutcome :=
  match getSession store sessionId with
  | none => ⟨.errorResp 404 "Session not found", store, false⟩
  | some session =>
    if session.documents.length = 0 then
      ⟨.errorResp 400 "No documents uploaded. Please upload case materials first.", store, false⟩
    else
      match apiKey with
      | none =>
        ⟨.errorResp 500 "Case.dev API key not configured. Please add CASEDEV_API_KEY to your .env.local file.", store, false⟩
      | some _ =>
        let (store1, _) := updateSession store sessionId (fun s => { s with status := "generating" })
        let sessDocs := session.documents.map (fun d =>
          ({ name := d.name, content := d.content } : SessDoc))
        let runFallback := fun (_ : Unit) =>
          generateFallbackQuestions uuid session.caseName session.witnessName sessDocs
        let (questions, usedFallback) :=
          match llm with
          | .networkError => (runFallback (), true)
          | .httpError _ => (runFallback (), true)
          | .okContent content =>
            if content = "" then (runFallback (), true)
            else
              match parseJSONResponse content with
              | some questionsData =>
                if questionsData.length > 0 then
                  match coerceQuestions uuid questionsData with
                  | some qs => (qs, false)
                  | none => (runFallback (), true)
                else (runFallback (), true)
              | none => (runFallback (), true)
        let (questions, usedFallback) :=
          if questions.length = 0 then (runFallback (), true) else (questions, usedFallback)
        let (store2, _) := setQuestions store1 sessionId questions
        ⟨.okResp questions usedFallback, store2, true⟩

end Sessions

/-! # Theorems -/

/-- A fixed identifier supply used by concrete witnesses. -/
def wUuid : Nat → String := fun n => toString n

/-- Mapping with `mapMO` preserves length on success. -/
theorem mapMO_length {α β : Type} (f : α → Option β) :
    ∀ (l : List α) (out : List β), mapMO f l = some out → out.length = l.length := by
  intro l
  induction l with
  | nil =>
    intro out h
    simp only [mapMO, Option.some.injEq] at h
    simp [← h]
  | cons a l ih =>
    intro out h
    simp only [mapMO] at h
    cases hfa : f a with
    | none => simp [hfa] at h
    | some b =>
      cases hml : mapMO f l with
      | none => simp [hfa, hml] at h
      | some bs =>
        simp [hfa, hml] at h
        simp [← h, ih bs hml]

/-- The padding loop leaves at least `min 10 (length + fuel)` questions. -/
theorem padQuestions_length (documents : List GenDoc) :
    ∀ (fuel : Nat) (qs : List DepositionQuestion),
      min 10 (qs.length + fuel) ≤ (Depositions.padQuestions documents fuel qs).length := by
  intro fuel
  induction fuel with
  | zero =>
    intro qs
    simp only [Depositions.padQuestions]
    omega
  | succ n ih =>
    intro qs
    unfold Depositions.padQuestions
    by_cases h : qs.length < 10
    · simp only [h, if_true]
      have := ih (qs ++ [Depositions.padQuestion documents qs.length])
      simp [List.length_append] at this
      omega
    · simp only [h, if_false]
      omega

/-- C1: for every session with at least one document, the deposition
fallback synthesizer (`generateFallbackQuestions`) returns at least ten
questions: when fewer than ten extraction-derived questions exist, the
round-robin "explain your involvement" padding loop appends one question
per iteration until the floor of ten is met, and the loop terminates. -/
theorem fallback_questions_floor (uuid : Nat → String) (caseName deponentName : String)
    (documents : List GenDoc) (hne : documents ≠ []) :
    10 ≤ (Depositions.generateFallbackQuestions uuid caseName deponentName documents).questions.length := by
  have _ := hne
  simp only [Depositions.generateFallbackQuestions, List.length_map, List.enum_length]
  have h := padQuestions_length documents 10
    (Depositions.fallbackQuestionsCore deponentName (documents.map (·.name))
      (extractDocumentDetails documents) documents)
  omega

/-- Witness for C1 at a concrete one-document session. -/
theorem fallback_questions_floor_witness :
    10 ≤ (Depositions.generateFallbackQuestions wUuid "Case" "Jane Doe"
        [⟨"Doc1", none, "other"⟩]).questions.length :=
  fallback_questions_floor wUuid "Case" "Jane Doe" [⟨"Doc1", none, "other"⟩] (by decide)

/-- C2: the field validators are total and default every enum field: any
input in the closed set passes through unchanged, and any other input
maps to the fixed default of that field (`general`, `medium`, `medium`,
`moderate` respectively). -/
theorem validators_total_and_default (s : String) :
    (Sessions.validCategories.contains s = true → Sessions.validateCategory s = s)
    ∧ (Sessions.validCategories.contains s = false → Sessions.validateCategory s = "general")
    ∧ (Depositions.validCategories.contains s = true → Depositions.validateCategory s = s)
    ∧ (Depositions.validCategories.contains s = false → Depositions.validateCategory s = "general")
    ∧ (Sessions.validDifficulties.contains s = true → Sessions.validateDifficulty s = s)
    ∧ (Sessions.validDifficulties.contains s = false → Sessions.validateDifficulty s = "medium")
    ∧ (Depositions.validPriorities.contains s = true → Depositions.validatePriority s = s)
    ∧ (Depositions.validPriorities.contains s = false → Depositions.validatePriority s = "medium")
    ∧ (Depositions.validSeverities.contains s = true → Depositions.validateSeverity s = s)
    ∧ (Depositions.validSeverities.contains s = false → Depositions.validateSeverity s = "moderate") := by
  refine ⟨?_, ?_, ?_, ?_, ?_, ?_, ?_, ?_, ?_, ?_⟩ <;> intro h <;>
    simp only [Sessions.validateCategory, Sessions.validateDifficulty,
      Depositions.validateCategory, Depositions.validatePriority,
      Depositions.validateSeverity] <;> rw [h] <;> simp

/-- Witness for C2: one in-set and one out-of-set input per validator
family. -/
theorem validators_total_and_default_witness :
    Sessions.validateCategory "timeline" = "timeline"
    ∧ Sessions.validateCategory "bogus" = "general"
    ∧ Sessions.validateDifficulty "bogus" = "medium"
    ∧ Depositions.validateCategory "follow_up" = "follow_up"
    ∧ Depositions.validatePriority "bogus" = "medium"
    ∧ Depositions.validateSeverity "bogus" = "moderate" :=
  ⟨(validators_total_and_default "timeline").1 (by decide),
   (validators_total_and_default "bogus").2.1 (by decide),
   (validators_total_and_default "bogus").2.2.2.2.2.1 (by decide),
   (validators_total_and_default "follow_up").2.2.1 (by decide),
   (validators_total_and_default "bogus").2.2.2.2.2.2.2.1 (by decide),
   (validators_total_and_default "bogus").2.2.2.2.2.2.2.2.2 (by decide)⟩

/-- C3: on the LLM-success path the coerced question list of either
endpoint has length `min (input length) 20` — in particular it never
exceeds twenty entries. -/
theorem coerced_questions_capped (uuid : Nat → String) (offset : Nat) (l : List Json)
    (outS : List CrossExamQuestion) (outD : List DepositionQuestion)
    (hS : Sessions.coerceQuestions uuid l = some outS)
    (hD : Depositions.coerceQuestions uuid offset l = some outD) :
    outS.length = min l.length 20 ∧ outD.length = min l.length 20 := by
  unfold Sessions.coerceQuestions at hS
  unfold Depositions.coerceQuestions at hD
  have h1 := mapMO_length _ _ _ hS
  have h2 := mapMO_length _ _ _ hD
  simp [List.enum_length, List.length_take] at h1 h2
  omega

/-- A batch of twenty-five well-formed question objects. -/
def qList25 : List Json := List.replicate 25 (Json.obj [("question", Json.str "Q")])

/-- Witness for C3: twenty-five question objects coerce to exactly
twenty entries on both endpoints. -/
theorem coerced_questions_capped_witness :
    ((Sessions.coerceQuestions wUuid qList25).getD []).length = 20
    ∧ ((Depositions.coerceQuestions wUuid 0 qList25).getD []).length = 20 := by
  have hS : Sessions.coerceQuestions wUuid qList25
      = some ((Sessions.coerceQuestions wUuid qList25).getD []) := by decide
  have hD : Depositions.coerceQuestions wUuid 0 qList25
      = some ((Depositions.coerceQuestions wUuid 0 qList25).getD []) := by decide
  have h := coerced_questions_capped wUuid 0 qList25 _ _ hS hD
  constructor
  · rw [h.1]; decide
  · rw [h.2]; decide

/-- C8: entity extraction is deterministic — it is a pure function of
the document names, contents and types, so two invocations on pointwise
identical document lists return identical extraction results (all six
lists, element for element, in order). -/
theorem extraction_deterministic (d1 d2 : List GenDoc)
    (hn : d1.map (·.name) = d2.map (·.name))
    (hc : d1.map (·.content) = d2.map (·.content))
    (ht : d1.map (·.type) = d2.map (·.type)) :
    extractDocumentDetails d1 = extractDocumentDetails d2 := by
  have : d1 = d2 := by
    induction d1 generalizing d2 with
    | nil => cases d2 with
      | nil => rfl
      | cons b m => simp at hn
    | cons a l ih =>
      cases d2 with
      | nil => simp at hn
      | cons b m =>
        simp only [List.map_cons, List.cons.injEq] at hn hc ht
        have hab : a = b := by
          cases a; cases b
          simp_all
        rw [hab, ih m hn.2 hc.2 ht.2]
  rw [this]

/-- Witness for C8 on two syntactically distinct but pointwise equal
document lists. -/
theorem extraction_deterministic_witness :
    extractDocumentDetails [⟨"A", some "John Smith", "exhibit"⟩]
      = extractDocumentDetails [⟨"A", some ("John" ++ " Smith"), "exhibit"⟩] :=
  extraction_deterministic _ _ (by decide) (by decide) (by decide)

/-! ### C4: empty document list fails fast -/

/-- C4: on either endpoint, a generation request for a session whose
document list is empty fails with HTTP 400 before anything else happens:
the store is returned unchanged (no status update, no question, gap or
contradiction mutation) and the LLM fetch is never reached. -/
theorem generation_requires_documents
    (storeD : Depositions.DepoStore) (storeS : Sessions.SessStore) (sidD sidS : String)
    (apiKey : Option String) (uuid : Nat → String) (llm : LLMOutcome)
    (sd : DepositionSession) (ss : PracticeSession)
    (hd : storeD sidD = some sd) (hd0 : sd.documents = [])
    (hs : storeS sidS = some ss) (hs0 : ss.documents = []) :
    (Depositions.POST storeD apiKey uuid llm sidD).response.status = 400
    ∧ (Depositions.POST storeD apiKey uuid llm sidD).store = storeD
    ∧ (Depositions.POST storeD apiKey uuid llm sidD).llmCalled = false
    ∧ (Sessions.POST storeS apiKey uuid llm sidS).response.status = 400
    ∧ (Sessions.POST storeS apiKey uuid llm sidS).store = storeS
    ∧ (Sessions.POST storeS apiKey uuid llm sidS).llmCalled = false := by
  unfold Depositions.POST Sessions.POST Depositions.getDepositionSession Sessions.getSession
  rw [hd, hs]
  simp [hd0, hs0, Depositions.DepResponse.status, Sessions.SessResponse.status]

/-- A concrete deposition session with no documents. -/
def emptyDepSession : DepositionSession :=
  { id := "d1", deponentName := "Jane Doe", caseName := "Case", caseNumber := none
    depositionDate := none, createdAt := 0, documents := [], gaps := [], contradictions := []
    questions := [], outline := none, status := "setup", analysis := none }

/-- A concrete practice session with no documents. -/
def emptyPracticeSession : PracticeSession :=
  { id := "s1", witnessName := "Jane Doe", caseName := "Case", createdAt := 0, documents := []
    questions := [], status := "setup", practiceHistory := [], totalDuration := 0
    recordingUrl := none }

def emptyDepStore : Depositions.DepoStore :=
  fun k => if k = "d1" then some emptyDepSession else none

def emptySessStore : Sessions.SessStore :=
  fun k => if k = "s1" then some emptyPracticeSession else none

/-- Witness for C4 at concrete stores holding document-less sessions. -/
theorem generation_requires_documents_witness :
    (Depositions.POST emptyDepStore (some "key") wUuid (LLMOutcome.okContent "[]") "d1").response.status = 400
    ∧ (Depositions.POST emptyDepStore (some "key") wUuid (LLMOutcome.okContent "[]") "d1").store = emptyDepStore
    ∧ (Depositions.POST emptyDepStore (some "key") wUuid (LLMOutcome.okContent "[]") "d1").llmCalled = false
    ∧ (Sessions.POST emptySessStore (some "key") wUuid (LLMOutcome.okContent "[]") "s1").response.status = 400
    ∧ (Sessions.POST emptySessStore (some "key") wUuid (LLMOutcome.okContent "[]") "s1").store = emptySessStore
    ∧ (Sessions.POST emptySessStore (some "key") wUuid (LLMOutcome.okContent "[]") "s1").llmCalled = false :=
  generation_requires_documents emptyDepStore emptySessStore "d1" "s1" (some "key") wUuid
    (LLMOutcome.okContent "[]") emptyDepSession emptyPracticeSession
    (by decide) (by decide) (by decide) (by decide)

/-! ### C5: parser totality and result shape -/

theorem asObjectLike_some {o : Option Json} {v : Json}
    (h : Depositions.asObjectLike o = some v) : Depositions.typeofObjectNotNull v = true := by
  cases o with
  | none => simp [Depositions.asObjectLike] at h
  | some w =>
    simp only [Depositions.asObjectLike] at h
    by_cases hw : Depositions.typeofObjectNotNull w
    · rw [if_pos hw] at h
      cases h
      exact hw
    · rw [if_neg hw] at h
      cases h

theorem dep_strategy1_shape {cs : Chars} {v : Json}
    (h : Depositions.strategy1 cs = some v) : Depositions.typeofObjectNotNull v = true :=
  asObjectLike_some h

theorem dep_strategy2_shape {cs : Chars} {v : Json}
    (h : Depositions.strategy2 cs = some v) : Depositions.typeofObjectNotNull v = true :=
  asObjectLike_some h

theorem dep_strategy3_shape {cs : Chars} {v : Json}
    (h : Depositions.strategy3 cs = some v) : Depositions.typeofObjectNotNull v = true := by
  unfold Depositions.strategy3 at h
  repeat' split at h
  all_goals first
    | exact asObjectLike_some h
    | cases h

theorem dep_strategy4_shape {cs : Chars} {v : Json}
    (h : Depositions.strategy4 cs = some v) : Depositions.typeofObjectNotNull v = true := by
  unfold Depositions.strategy4 at h
  repeat' split at h
  all_goals first
    | exact asObjectLike_some h
    | cases h

/-- The four-strategy fallback chain only succeeds with a value passing
the `typeof === 'object' && !== null` guard. -/
theorem dep_parse_chain_shape (cs : Chars) {v : Json}
    (h : (Depositions.strategy1 cs <|> Depositions.strategy2 cs
          <|> Depositions.strategy3 cs <|> Depositions.strategy4 cs) = some v) :
    Depositions.typeofObjectNotNull v = true := by
  cases h1 : Depositions.strategy1 cs with
  | some w =>
    simp [h1, Option.orElse] at h
    exact h ▸ dep_strategy1_shape h1
  | none =>
  cases h2 : Depositions.strategy2 cs with
  | some w =>
    simp [h1, h2, Option.orElse] at h
    exact h ▸ dep_strategy2_shape h2
  | none =>
  cases h3 : Depositions.strategy3 cs with
  | some w =>
    simp [h1, h2, h3, Option.orElse] at h
    exact h ▸ dep_strategy3_shape h3
  | none =>
  cases h4 : Depositions.strategy4 cs with
  | some w =>
    simp [h1, h2, h3, h4, Option.orElse] at h
    exact h ▸ dep_strategy4_shape h4
  | none => simp [h1, h2, h3, h4, Option.orElse] at h

/-- Corrected C5 (the amended claim): for every input string each parser
is total — the embedding returns a value or the null sentinel, never an
exception — and the value's shape is an array on the array endpoint and
an object **or an array** on the object endpoint (JavaScript `typeof`
calls both `'object'`). -/
theorem parser_total_shape (s : String) :
    (Sessions.parseJSONResponse s = none ∨ ∃ l, Sessions.parseJSONResponse s = some l)
    ∧ (Depositions.parseJSONResponse s = none
       ∨ ∃ v, Depositions.parseJSONResponse s = some v
           ∧ (v.isObj = true ∨ v.isArr = true)) := by
  constructor
  · cases h : Sessions.parseJSONResponse s with
    | none => exact Or.inl rfl
    | some l => exact Or.inr ⟨l, rfl⟩
  · cases h : Depositions.parseJSONResponse s with
    | none => exact Or.inl rfl
    | some v =>
      refine Or.inr ⟨v, rfl, ?_⟩
      have hshape : Depositions.typeofObjectNotNull v = true := by
        unfold Depositions.parseJSONResponse at h
        exact dep_parse_chain_shape _ h
      cases v <;> simp_all [Depositions.typeofObjectNotNull, Json.isObj, Json.isArr]

/-- Counterexample to C5 as stated: on the object (deposition) endpoint
the guard `typeof parsed === 'object' && parsed !== null` also passes
arrays, so the input `[1]` makes the parser return a JSON array, not an
object. -/
theorem parser_object_endpoint_array_cex :
    Depositions.parseJSONResponse "[1]" = some (Json.arr [Json.num "1"])
    ∧ (Json.arr [Json.num "1"]).isObj = false := by
  constructor <;> decide

/-! ### C6 and C10: `reorderOutlineSections` -/

/-- Forget the `order` field of a section (normalise it to `0`), to
speak about "the same section" across a reorder. -/
def stripOrder (sec : OutlineSection) : OutlineSection := { sec with order := 0 }

theorem stripOrder_setOrder (sec : OutlineSection) (i : Nat) :
    stripOrder { sec with order := i } = stripOrder sec := rfl

/-- Up to order values, the rebuilt section list is the ids list mapped
through section lookup, ids without a matching section skipped. -/
theorem reorderLoop_stripOrder (sections : List OutlineSection) :
    ∀ (ids : List String) (i : Nat),
      (Depositions.reorderSectionsLoop sections ids i).map stripOrder
        = ids.filterMap (fun sid => (sections.find? (fun sec => sec.id == sid)).map stripOrder) := by
  intro ids
  induction ids with
  | nil => intro i; simp [Depositions.reorderSectionsLoop]
  | cons sid rest ih =>
    intro i
    unfold Depositions.reorderSectionsLoop
    cases hf : sections.find? (fun sec => sec.id == sid) with
    | none => simp [hf, ih]
    | some sec => simp [hf, ih, stripOrder_setOrder]

/-- The rebuilt section ids are exactly the requested ids that match
some section, in request order. -/
theorem reorderLoop_ids (sections : List OutlineSection) :
    ∀ (ids : List String) (i : Nat),
      (Depositions.reorderSectionsLoop sections ids i).map (·.id)
        = ids.filter (fun sid => (sections.find? (fun sec => sec.id == sid)).isSome) := by
  intro ids
  induction ids with
  | nil => intro i; simp [Depositions.reorderSectionsLoop]
  | cons sid rest ih =>
    intro i
    unfold Depositions.reorderSectionsLoop
    cases hf : sections.find? (fun sec => sec.id == sid) with
    | none => simp [hf, ih]
    | some sec =>
      have hid : sec.id = sid := by
        have := List.find?_some hf
        simpa using this
      simp [hf, ih, hid]

/-- When every requested id matches a section, the rebuilt orders are
`i, i+1, …` in list position order. -/
theorem reorderLoop_allFound (sections : List OutlineSection) :
    ∀ (ids : List String) (i : Nat),
      (∀ sid ∈ ids, (sections.find? (fun sec => sec.id == sid)).isSome = true) →
      (Depositions.reorderSectionsLoop sections ids i).map (·.order) = List.range' i ids.length := by
  intro ids
  induction ids with
  | nil => intro i _; simp [Depositions.reorderSectionsLoop]
  | cons sid rest ih =>
    intro i hall
    unfold Depositions.reorderSectionsLoop
    cases hf : sections.find? (fun sec => sec.id == sid) with
    | none =>
      have := hall sid (by simp)
      simp [hf] at this
    | some sec =>
      have hr := ih (i + 1) (fun x hx => hall x (by simp [hx]))
      simp [hf, hr, List.range'_succ]

/-- C10: after `reorderOutlineSections` on a session with an outline,
the outline holds exactly the previous sections whose ids appear in
`sectionIds`, arranged in the order of `sectionIds` (order values
aside); sections whose id is absent are silently dropped and unmatched
ids are ignored. -/
theorem reorder_sections_follow_ids
    (store : Depositions.DepoStore) (sessionId : String) (sectionIds : List String) (now : Nat)
    (s : DepositionSession) (o : DepositionOutline)
    (hs : store sessionId = some s) (ho : s.outline = some o) :
    ∃ s2 o2, (Depositions.reorderOutlineSections store sessionId sectionIds now).2 = some s2
      ∧ s2.outline = some o2
      ∧ o2.sections.map stripOrder
          = sectionIds.filterMap (fun sid => (o.sections.find? (fun sec => sec.id == sid)).map stripOrder)
      ∧ o2.sections.map (·.id)
          = sectionIds.filter (fun sid => (o.sections.find? (fun sec => sec.id == sid)).isSome) := by
  simp only [Depositions.reorderOutlineSections, hs, ho]
  exact ⟨_, _, rfl, rfl, reorderLoop_stripOrder o.sections sectionIds 0,
    reorderLoop_ids o.sections sectionIds 0⟩

/-- Corrected C6 (the amended claim): after a reorder in which every
requested id matches an existing section, the rebuilt order values are
contiguous from 0 and equal each section's position in the list. -/
theorem reorder_orders_contiguous_when_ids_match
    (store : Depositions.DepoStore) (sessionId : String) (sectionIds : List String) (now : Nat)
    (s : DepositionSession) (o : DepositionOutline)
    (hs : store sessionId = some s) (ho : s.outline = some o)
    (hall : ∀ sid ∈ sectionIds, (o.sections.find? (fun sec => sec.id == sid)).isSome = true) :
    ∃ s2 o2, (Depositions.reorderOutlineSections store sessionId sectionIds now).2 = some s2
      ∧ s2.outline = some o2
      ∧ o2.sections.map (·.order) = List.range o2.sections.length := by
  simp only [Depositions.reorderOutlineSections, hs, ho]
  refine ⟨_, _, rfl, rfl, ?_⟩
  have hm := reorderLoop_allFound o.sections sectionIds 0 hall
  have hlen : (Depositions.reorderSectionsLoop o.sections sectionIds 0).length
      = sectionIds.length := by
    have := congrArg List.length hm
    simpa using this
  rw [hm, hlen, List.range_eq_range']

/-! Concrete outline fixtures. -/

def sectionA : OutlineSection :=
  { id := "a", title := "A", order := 5, questions := [], notes := none, estimatedTime := none }

def sectionB : OutlineSection :=
  { id := "b", title := "B", order := 7, questions := [], notes := none, estimatedTime := none }

def outlineAB : DepositionOutline :=
  { id := "o1", title := "Outline", sections := [sectionA, sectionB], createdAt := 0, updatedAt := 0 }

def outlineSession : DepositionSession :=
  { emptyDepSession with id := "d2", outline := some outlineAB }

def outlineStore : Depositions.DepoStore :=
  fun k => if k = "d2" then some outlineSession else none

/-- The section list after the C6/C10 witness reorder of `[a, b]` by
`["b", "a"]` and `["b", "x", "a"]` respectively. -/
def c6wResultSections : List OutlineSection :=
  match (Depositions.reorderOutlineSections outlineStore "d2" ["b", "a"] 3).2 with
  | some s2 =>
    match s2.outline with
    | some o2 => o2.sections
    | none => []
  | none => []

def c10wResultSections : List OutlineSection :=
  match (Depositions.reorderOutlineSections outlineStore "d2" ["b", "x", "a"] 4).2 with
  | some s2 =>
    match s2.outline with
    | some o2 => o2.sections
    | none => []
  | none => []

/-- Witness for the amended C6: reordering `[a, b]` by `["b", "a"]`
(all ids matching) yields orders `[0, 1]`. -/
theorem reorder_orders_contiguous_when_ids_match_witness :
    c6wResultSections.map (·.order) = List.range c6wResultSections.length := by
  obtain ⟨s2, o2, h1, h2, h3⟩ := reorder_orders_contiguous_when_ids_match
    outlineStore "d2" ["b", "a"] 3 outlineSession outlineAB (by decide) (by decide) (by decide)
  simp only [c6wResultSections, h1, h2]
  exact h3

/-- Witness for C10: reordering `[a, b]` by `["b", "x", "a"]` keeps
`b` then `a`, ignoring the unmatched id `"x"`. -/
theorem reorder_sections_follow_ids_witness :
    c10wResultSections.map stripOrder = [stripOrder sectionB, stripOrder sectionA]
    ∧ c10wResultSections.map (·.id) = ["b", "a"] := by
  obtain ⟨s2, o2, h1, h2, h3, h4⟩ := reorder_sections_follow_ids
    outlineStore "d2" ["b", "x", "a"] 4 outlineSession outlineAB (by decide) (by decide)
  simp only [c10wResultSections, h1, h2]
  constructor
  · rw [h3]; decide
  · rw [h4]; decide

/-! The counterexample to C6 as stated: an id matching no section still
advances the loop counter, so the surviving section gets order `1` at
list position `0`. -/

def cexOutline : DepositionOutline :=
  { id := "o2", title := "Outline", sections := [sectionA], createdAt := 0, updatedAt := 0 }

def cexSession : DepositionSession :=
  { emptyDepSession with id := "d3", outline := some cexOutline }

def cexStore : Depositions.DepoStore :=
  fun k => if k = "d3" then some cexSession else none

def cexReorderedSections : List OutlineSection :=
  match (Depositions.reorderOutlineSections cexStore "d3" ["b", "a"] 1).2 with
  | some s2 =>
    match s2.outline with
    | some o2 => o2.sections
    | none => []
  | none => []

/-- Counterexample to C6 as stated: reordering the single-section
outline `[a]` by `["b", "a"]` (the id `"b"` matches nothing) leaves the
section list `[a]` with order values `[1]`, which are not contiguous
from 0 and do not equal the list positions. -/
theorem reorder_contiguity_cex :
    cexReorderedSections.map (·.order) = [1]
    ∧ cexReorderedSections.map (·.order) ≠ List.range cexReorderedSections.length := by
  constructor <;> decide

/-! ### C9: trailing-comma repair (array endpoint) -/

/-- Corrected C9 (the amended claim): whenever strategies 1-4 all fail
on an input and strategy 5 (bracket substring, trailing-comma removal,
no-op newline fix, parse) produces an array, the parser returns exactly
that repaired array. -/
theorem parser_trailing_comma_repair (s : String) (a : List Json)
    (h1 : Sessions.strategy1 s.toList = none) (h2 : Sessions.strategy2 s.toList = none)
    (h3 : Sessions.strategy3 s.toList = none) (h4 : Sessions.strategy4 s.toList = none)
    (h5 : Sessions.strategy5 s.toList = some a) :
    Sessions.parseJSONResponse s = some a := by
  unfold Sessions.parseJSONResponse
  simp only [String.toList] at h1 h2 h3 h4 h5
  simp [h1, h2, h3, h4, h5, Option.orElse]

/-- Witness for the amended C9: on `"[1,]"` strategies 1-4 fail and the
strategy-5 repair parses, so the parser returns `[1]`. -/
theorem parser_trailing_comma_repair_witness :
    Sessions.parseJSONResponse "[1,]" = some [Json.num "1"] :=
  parser_trailing_comma_repair "[1,]" [Json.num "1"]
    (by decide) (by decide) (by decide) (by decide) (by decide)

/-- Counterexample to C9 as stated: the input is a well-formed JSON
array except for one trailing comma before its closing bracket (the
first two conjuncts exhibit it as the intended array's text with a
comma inserted before the final bracket, the third parses the intended
array `["a,]"]`).  But strategy 5's global `,\s*([}\]])` repair also
rewrites the `,]` inside the string literal, so the parser returns the
different array `["a]"]` rather than the intended one. -/
theorem parser_trailing_comma_cex :
    ("[\"a,]\",]" : String) = "[\"a,]\"" ++ ",]"
    ∧ ("[\"a,]\"]" : String) = "[\"a,]\"" ++ "]"
    ∧ jsonParse "[\"a,]\"]" = some (Json.arr [Json.str "a,]"])
    ∧ Sessions.parseJSONResponse "[\"a,]\",]" = some [Json.str "a]"]
    ∧ ([Json.str "a]"] ≠ [Json.str "a,]"]) :=
  ⟨by decide, by decide, by decide, by decide, by decide⟩

/-! ### C7: second-person phrasing in the fallback synthesizers -/

/-- Second-person phrasing: the string contains "you" (which also
covers "your") in any of its casings. -/
def secondPersonB (s : String) : Bool :=
  containsStr s "you" || containsStr s "You" || containsStr s "YOU"

/-- Counterexample to C7 as stated: with one contentless document, the
deposition fallback synthesizer emits the always-appended document-gaps
question ("The documents produced cover certain time periods but there
appear to be gaps. …"), which contains no second-person reference at
all — so not every generated question references the subject with
"you"/"your". -/
theorem fallback_second_person_cex :
    ((Depositions.generateFallbackQuestions wUuid "Case" "Jane Doe"
        [⟨"Doc1", none, "other"⟩]).questions.any
      (fun q => !(secondPersonB q.question))) = true := by
  decide

theorem containsL_nil (l : Chars) : containsL [] l = true := by
  induction l with
  | nil => simp [containsL, startsWithL]
  | cons c cs ih => simp [containsL, startsWithL, ih]

theorem startsWithL_append (pat : Chars) :
    ∀ (a b : Chars), startsWithL pat a = true → startsWithL pat (a ++ b) = true := by
  induction pat with
  | nil => intro a b _; simp [startsWithL]
  | cons p ps ih =>
    intro a b h
    cases a with
    | nil => simp [startsWithL] at h
    | cons c cs =>
      simp only [List.cons_append, startsWithL, Bool.and_eq_true] at h ⊢
      exact ⟨h.1, ih cs b h.2⟩

theorem containsL_append_right (pat : Chars) :
    ∀ (a b : Chars), containsL pat b = true → containsL pat (a ++ b) = true := by
  intro a
  induction a with
  | nil => intro b h; simpa using h
  | cons c a ih =>
    intro b h
    simp only [List.cons_append, containsL, Bool.or_eq_true]
    exact Or.inr (ih b h)

theorem containsL_append_left (pat : Chars) :
    ∀ (a b : Chars), containsL pat a = true → containsL pat (a ++ b) = true := by
  intro a
  induction a with
  | nil =>
    intro b h
    cases pat with
    | nil => simpa using containsL_nil b
    | cons p ps => simp [containsL, startsWithL] at h
  | cons c a ih =>
    intro b h
    simp only [containsL, Bool.or_eq_true] at h
    simp only [List.cons_append, containsL, Bool.or_eq_true]
    cases h with
    | inl hs =>
      left
      have := startsWithL_append pat (c :: a) b hs
      simpa using this
    | inr hc => exact Or.inr (ih b hc)

/-- Substring containment survives appending on the left. -/
theorem containsStr_append_right (x y pat : String) (h : containsStr y pat = true) :
    containsStr (x ++ y) pat = true := by
  unfold containsStr at h ⊢
  simp only [String.toList, String.data_append]
  exact containsL_append_right _ _ _ h

/-- Substring containment survives appending on the right. -/
theorem containsStr_append_left (x y pat : String) (h : containsStr x pat = true) :
    containsStr (x ++ y) pat = true := by
  unfold containsStr at h ⊢
  simp only [String.toList, String.data_append]
  exact containsL_append_left _ _ _ h

theorem mem_enumFrom_snd {α : Type} :
    ∀ (l : List α) (n : Nat) (p : Nat × α), p ∈ List.enumFrom n l → p.2 ∈ l := by
  intro l
  induction l with
  | nil => intro n p h; simp [List.enumFrom] at h
  | cons a l ih =>
    intro n p h
    simp only [List.enumFrom, List.mem_cons] at h
    cases h with
    | inl he => simp [he]
    | inr hr => exact List.mem_cons_of_mem _ (ih (n + 1) p hr)

theorem mem_enum_snd {α : Type} (l : List α) (p : Nat × α) (h : p ∈ l.enum) : p.2 ∈ l :=
  mem_enumFrom_snd l 0 p h

/-- A member of the padded list is either an original member or a
padding question. -/
theorem mem_padQuestions (documents : List GenDoc) :
    ∀ (fuel : Nat) (qs : List DepositionQuestion) (q0 : DepositionQuestion),
      q0 ∈ Depositions.padQuestions documents fuel qs →
      q0 ∈ qs ∨ ∃ n, q0 = Depositions.padQuestion documents n := by
  intro fuel
  induction fuel with
  | zero =>
    intro qs q0 h
    simp only [Depositions.padQuestions] at h
    exact Or.inl h
  | succ n ih =>
    intro qs q0 h
    unfold Depositions.padQuestions at h
    by_cases hl : qs.length < 10
    · rw [if_pos hl] at h
      rcases ih _ _ h with hm | hp
      · rcases List.mem_append.mp hm with hm1 | hm2
        · exact Or.inl hm1
        · simp only [List.mem_singleton] at hm2
          exact Or.inr ⟨qs.length, hm2⟩
      · exact Or.inr hp
    · rw [if_neg hl] at h
      exact Or.inl h

/-- In the pre-padding question list, only the per-name questions carry
the topic "Witness Relationships". -/
theorem core_witnessRel (deponentName : String) (docNames : List String)
    (details : ExtractedDetails) (documents : List GenDoc) (q0 : DepositionQuestion)
    (h : q0 ∈ Depositions.fallbackQuestionsCore deponentName docNames details documents)
    (ht : q0.topic = "Witness Relationships") :
    ∃ i nm, q0 = Depositions.mkNameQuestion deponentName docNames i nm := by
  unfold Depositions.fallbackQuestionsCore at h
  simp only [List.mem_append] at h
  rcases h with (((((((h | h) | h) | h) | h) | h) | h) | h)
  · rw [List.mem_filterMap] at h
    obtain ⟨x, _, hfx⟩ := h
    by_cases c : x.1 < 3
    · rw [if_pos c, Option.some.injEq] at hfx
      rw [← hfx] at ht
      have ht2 : ("Timeline of Events" : String) = "Witness Relationships" := ht
      exact absurd ht2 (by decide)
    · rw [if_neg c] at hfx; cases hfx
  · rw [List.mem_filterMap] at h
    obtain ⟨x, _, hfx⟩ := h
    by_cases c : (x.1 < 3 && x.2 ≠ deponentName : Bool)
    · rw [if_pos c, Option.some.injEq] at hfx
      exact ⟨x.1, x.2, hfx.symm⟩
    · rw [if_neg c] at hfx; cases hfx
  · rw [List.mem_filterMap] at h
    obtain ⟨x, _, hfx⟩ := h
    by_cases c : x.1 < 2
    · rw [if_pos c, Option.some.injEq] at hfx
      rw [← hfx] at ht
      have ht2 : ("Financial Details" : String) = "Witness Relationships" := ht
      exact absurd ht2 (by decide)
    · rw [if_neg c] at hfx; cases hfx
  · rw [List.mem_filterMap] at h
    obtain ⟨x, _, hfx⟩ := h
    by_cases c : x.1 < 3
    · rw [if_pos c, Option.some.injEq] at hfx
      rw [← hfx] at ht
      have ht2 : ("Prior Statements" : String) = "Witness Relationships" := ht
      exact absurd ht2 (by decide)
    · rw [if_neg c] at hfx; cases hfx
  · rw [List.mem_filterMap] at h
    obtain ⟨x, _, hfx⟩ := h
    by_cases c : x.1 < 2
    · rw [if_pos c, Option.some.injEq] at hfx
      rw [← hfx] at ht
      have ht2 : ("Document Content" : String) = "Witness Relationships" := ht
      exact absurd ht2 (by decide)
    · rw [if_neg c] at hfx; cases hfx
  · revert h
    cases hpt : (documents.filter (fun d => d.type = "prior_testimony" || d.type = "transcript")).head? with
    | none => intro h; simp at h
    | some pt =>
      intro h
      simp only [List.mem_singleton] at h
      rw [h] at ht
      have ht2 : ("Prior Testimony" : String) = "Witness Relationships" := ht
      exact absurd ht2 (by decide)
  · simp only [List.mem_singleton] at h
    rw [h] at ht
    have ht2 : ("Document Gaps" : String) = "Witness Relationships" := ht
    exact absurd ht2 (by decide)
  · by_cases c : documents.length > 1
    · rw [if_pos c] at h
      simp only [List.mem_singleton] at h
      rw [h] at ht
      have ht2 : ("Document Consistency" : String) = "Witness Relationships" := ht
      exact absurd ht2 (by decide)
    · rw [if_neg c] at h; cases h

/-- The per-name question addresses the deponent in the second person,
and so does each of its follow-up questions. -/
theorem mkNameQuestion_props (dn : String) (docNames : List String) (i : Nat) (nm : String) :
    containsStr (Depositions.mkNameQuestion dn docNames i nm).question "your" = true
    ∧ ∀ f ∈ (Depositions.mkNameQuestion dn docNames i nm).followUpQuestions.getD [],
        containsStr f "you" = true := by
  constructor
  · show containsStr
      (dn ++ ", the documents mention " ++ nm
        ++ ". Please describe your relationship with " ++ nm
        ++ " and any interactions you had with them regarding this matter.") "your" = true
    exact containsStr_append_left _ _ _
      (containsStr_append_left _ _ _ (containsStr_append_right _ _ _ (by decide)))
  · intro f hf
    simp only [Depositions.mkNameQuestion, Option.getD_some, List.mem_cons,
      List.mem_singleton, List.not_mem_nil, or_false] at hf
    rcases hf with hf | hf | hf
    · rw [hf]
      exact containsStr_append_left _ _ _ (containsStr_append_left _ _ _ (by decide))
    · rw [hf]
      exact containsStr_append_right _ _ _ (by decide)
    · rw [hf]
      exact containsStr_append_left _ _ _ (containsStr_append_left _ _ _ (by decide))

/-- Corrected C7 (the amended claim): every fallback question that
mentions an extracted person (the "Witness Relationships" questions,
the only synthesized questions referencing a person other than the
subject) addresses the subject in the second person — its text contains
"your" and each of its follow-up questions contains "you". -/
theorem fallback_name_questions_second_person
    (uuid : Nat → String) (caseName deponentName : String) (docs : List GenDoc)
    (q : DepositionQuestion)
    (hq : q ∈ (Depositions.generateFallbackQuestions uuid caseName deponentName docs).questions)
    (ht : q.topic = "Witness Relationships") :
    containsStr q.question "your" = true
    ∧ ∀ f ∈ q.followUpQuestions.getD [], containsStr f "you" = true := by
  simp only [Depositions.generateFallbackQuestions] at hq
  rw [List.mem_map] at hq
  obtain ⟨p, hp, rfl⟩ := hq
  have hmem := mem_enum_snd _ _ hp
  have htop : p.2.topic = "Witness Relationships" := ht
  rcases mem_padQuestions docs 10 _ _ hmem with hcore | ⟨n, hpad⟩
  · obtain ⟨i, nm, hqe⟩ := core_witnessRel _ _ _ _ _ hcore htop
    constructor
    · show containsStr p.2.question "your" = true
      rw [hqe]
      exact (mkNameQuestion_props _ _ _ _).1
    · show ∀ f ∈ p.2.followUpQuestions.getD [], containsStr f "you" = true
      rw [hqe]
      exact (mkNameQuestion_props _ _ _ _).2
  · rw [hpad] at htop
    have ht2 : ("Document Involvement" : String) = "Witness Relationships" := htop
    exact absurd ht2 (by decide)

/-- The fallback output for a document naming "John Smith": its first
question is the Witness Relationships question for that name. -/
def c7wQuestions : List DepositionQuestion :=
  (Depositions.generateFallbackQuestions wUuid "Case" "Jane Doe"
    [⟨"Doc1", some "John Smith", "other"⟩]).questions

def c7wDummy : DepositionQuestion :=
  ⟨"", "", "", "", "", none, none, none, none, none⟩

set_option maxHeartbeats 2000000 in
/-- Witness for the amended C7, at the concrete Witness Relationships
question the "John Smith" document produces. -/
theorem fallback_name_questions_second_person_witness :
    containsStr (c7wQuestions.getD 0 c7wDummy).question "your" = true
    ∧ ∀ f ∈ (c7wQuestions.getD 0 c7wDummy).followUpQuestions.getD [],
        containsStr f "you" = true := by
  have hm : c7wQuestions.getD 0 c7wDummy ∈
      (Depositions.generateFallbackQuestions wUuid "Case" "Jane Doe"
        [⟨"Doc1", some "John Smith", "other"⟩]).questions := by decide
  exact fallback_name_questions_second_person wUuid "Case" "Jane Doe"
    [⟨"Doc1", some "John Smith", "other"⟩] (c7wQuestions.getD 0 c7wDummy) hm (by decide)

end WitnessPrep
